import Mathlib

/-!
# Shadow pod lifecycle (`pkg/kt/cluster/shadow_pod.go`)

A shallow embedding of `GetKtResources`, `GetOrCreateShadow`, `createShadow`,
`createAndGetPod`, `tryGetExistingShadowRelatedObjs`, `getShadowPod` and
`shadowResult`.

Conventions of the embedding.

* The cluster and the local disk are an explicit world `σ`.  Every operation of
  `KubernetesInterface` and every effectful helper of package `util` is a function
  `σ → result × σ`; the embedded functions thread the world in source order.
* Every such call is recorded, with its arguments and its result, in the list of
  events the embedded function returns next to its value.  Nothing else touches the
  world, so that list is the complete account of a run's effects.
* A Go `(*T, error)` result of a collaborator is `Except GoError T`; a bare `error`
  is `Option GoError`.  Results of the functions of this file keep Go's shape: a
  tuple whose pointer components are `Option`s.
* A Go `map[string]string` is an association list with unique keys (`AList`);
  `m[k] = v` is `AList.insert`, `m[k]` is `lookup` with `""` for an absent key.  Maps
  and the `options` pointer, which the code dereferences unconditionally, are values.
* `context.Context` is passed through unchanged by the source and is left out, as are
  the log statements and `util.GetOutboundIP`, whose result is only logged.
* Packages `common`, `options` and `util` and the declaration of `KubernetesInterface`
  are not among the sources.  Their constants and functions are parameters (`Common`,
  `Util`, `KubernetesInterface`); the record constructor `util.NewSSHGenerator` and
  `util.Generate` are written out from the specification.
-/

namespace KtConnect

/-! ## Data model -/

/-- Go `map[string]string`. -/
abbrev StrMap := AList (fun _ : String => String)

/-- Go `m[k]` on a `map[string]string`: the zero value `""` when the key is absent. -/
def StrMap.index (m : StrMap) (k : String) : String :=
  (m.lookup k).getD ""

/-- Go `for k, v := range src { dst[k] = v }`. -/
def StrMap.assignAll (dst src : StrMap) : StrMap :=
  src.entries.foldl (fun acc e => acc.insert e.1 e.2) dst

/-- Go `error` value, identified by its message. -/
structure GoError where
  msg : String
deriving DecidableEq, Repr

/-- Go `errors.New`. -/
def errors.New (text : String) : GoError := ⟨text⟩

/-- Go `err.Error()`. -/
def GoError.Error (e : GoError) : String := e.msg

/-- Substring test on messages: `sub` occurs contiguously in `s`. -/
def strContains (s sub : String) : Prop := sub.data <:+: s.data

/-- Fields of `coreV1.PodStatus` read by the code. -/
structure PodStatus where
  PodIP : String
deriving DecidableEq, Repr

/-- Fields of `coreV1.Pod` read by the code, with the object metadata a client
matches on. -/
structure Pod where
  Name : String
  Namespace : String
  Labels : StrMap
  Status : PodStatus
deriving DecidableEq

/-- Go `coreV1.PodList`. -/
structure PodList where
  Items : List Pod
deriving DecidableEq

/-- Go `appV1.Deployment`, by name. -/
structure Deployment where
  Name : String
deriving DecidableEq, Repr

/-- Go `appV1.DeploymentList`. -/
structure DeploymentList where
  Items : List Deployment
deriving DecidableEq

/-- Go `coreV1.Service`, by name. -/
structure Service where
  Name : String
deriving DecidableEq, Repr

/-- Go `coreV1.ServiceList`. -/
structure ServiceList where
  Items : List Service
deriving DecidableEq

/-- Fields of `coreV1.ConfigMap` read by the code. -/
structure ConfigMap where
  Name : String
  Namespace : String
  Data : StrMap
deriving DecidableEq

/-- Go `options.ConnectOptions`, the field read by the code. -/
structure ConnectOptions where
  ShareShadow : Bool
deriving DecidableEq, Repr

/-- Go `options.DaemonOptions`, the fields read by the code; `ConnectOptions` is a
pointer in the source. -/
structure DaemonOptions where
  Namespace : String
  Image : String
  WithLabels : String
  WithAnnotations : String
  ConnectOptions : Option ConnectOptions
deriving DecidableEq, Repr

/-- Go `cluster.ResourceMeta`. -/
structure ResourceMeta where
  Name : String
  Namespace : String
  Labels : StrMap
  Annotations : StrMap
deriving DecidableEq

/-- Go `cluster.SSHkeyMeta`. -/
structure SSHkeyMeta where
  SshConfigMapName : String
  PrivateKeyPath : String
deriving DecidableEq, Repr

/-- Go `cluster.PodMetaAndSpec`. -/
structure PodMetaAndSpec where
  Meta : ResourceMeta
  Image : String
  Envs : StrMap
deriving DecidableEq

/-- Go `util.SSHGenerator`: the key material. -/
structure SSHGenerator where
  PrivateKey : String
  PublicKey : String
  PrivateKeyPath : String
deriving DecidableEq, Repr

/-- Go `util.SSHCredential`. -/
structure SSHCredential where
  RemoteHost : String
  Port : String
  UserName : String
  Password : String
  PrivateKeyPath : String
deriving DecidableEq, Repr

/-- Constants of package `common` used by the code. -/
structure Common where
  ControlBy : String
  KubernetesTool : String
  KtName : String
  KtUser : String
  SshAuthPrivateKey : String
  SshAuthKey : String
deriving DecidableEq, Repr

/-! ## Collaborators -/

/-- Operations of `cluster.KubernetesInterface` called by the code, over a world `σ`. -/
structure KubernetesInterface (σ : Type) where
  GetPod : String → String → σ → Except GoError Pod × σ
  GetPodsByLabel : StrMap → String → σ → Except GoError PodList × σ
  GetDeploymentsByLabel : StrMap → String → σ → Except GoError DeploymentList × σ
  GetServicesByLabel : StrMap → String → σ → Except GoError ServiceList × σ
  GetConfigMap : String → String → σ → Except GoError ConfigMap × σ
  CreateConfigMapWithSshKey :
    StrMap → String → String → SSHGenerator → σ → Except GoError ConfigMap × σ
  CreateShadowPod : PodMetaAndSpec → String → DaemonOptions → σ → Option GoError × σ
  WaitPodReady : String → String → σ → Except GoError Pod × σ
  IncreaseRef : String → String → σ → Option GoError × σ

/-- Helpers of package `util` called by the code, over a world `σ`.  `GenerateKeyPair`
is the key generation capability behind `util.Generate`: it is given the path of the
key file, may change the world, and yields the private and the public key. -/
structure Util (σ : Type) where
  PrivateKeyPath : String → String
  String2Map : String → StrMap
  GetLocalUserName : σ → String
  GenerateKeyPair : String → σ → Except GoError (String × String) × σ
  WritePrivateKey : String → String → σ → Option GoError × σ
  NewDefaultSSHCredential : SSHCredential

/-! ## Events and the execution monad -/

/-- One call to a collaborator: its arguments and its result. -/
inductive Event where
  | GetPod (name ns : String) (res : Except GoError Pod)
  | GetPodsByLabel (labels : StrMap) (ns : String) (res : Except GoError PodList)
  | GetDeploymentsByLabel (labels : StrMap) (ns : String) (res : Except GoError DeploymentList)
  | GetServicesByLabel (labels : StrMap) (ns : String) (res : Except GoError ServiceList)
  | GetConfigMap (name ns : String) (res : Except GoError ConfigMap)
  | CreateConfigMapWithSshKey (labels : StrMap) (name ns : String) (generator : SSHGenerator)
      (res : Except GoError ConfigMap)
  | CreateShadowPod (metaAndSpec : PodMetaAndSpec) (sshcm : String) (options : DaemonOptions)
      (res : Option GoError)
  | WaitPodReady (name ns : String) (res : Except GoError Pod)
  | IncreaseRef (name ns : String) (res : Option GoError)
  | Generate (path : String) (res : Except GoError SSHGenerator)
  | WritePrivateKey (path data : String) (res : Option GoError)

/-- Which collaborator operation an event is a call of. -/
inductive CallKind where
  | GetPod | GetPodsByLabel | GetDeploymentsByLabel | GetServicesByLabel | GetConfigMap
  | CreateConfigMapWithSshKey | CreateShadowPod | WaitPodReady | IncreaseRef
  | Generate | WritePrivateKey
deriving DecidableEq, Repr

/-- The operation called by an event. -/
def Event.kind : Event → CallKind
  | .GetPod .. => .GetPod
  | .GetPodsByLabel .. => .GetPodsByLabel
  | .GetDeploymentsByLabel .. => .GetDeploymentsByLabel
  | .GetServicesByLabel .. => .GetServicesByLabel
  | .GetConfigMap .. => .GetConfigMap
  | .CreateConfigMapWithSshKey .. => .CreateConfigMapWithSshKey
  | .CreateShadowPod .. => .CreateShadowPod
  | .WaitPodReady .. => .WaitPodReady
  | .IncreaseRef .. => .IncreaseRef
  | .Generate .. => .Generate
  | .WritePrivateKey .. => .WritePrivateKey

/-- The operations called in a run, in order. -/
def kinds (t : List Event) : List CallKind := t.map Event.kind

/-- The label map an event hands to the platform client, when it hands one. -/
def Event.labels? : Event → Option StrMap
  | .GetPodsByLabel labels _ _ => some labels
  | .GetDeploymentsByLabel labels _ _ => some labels
  | .GetServicesByLabel labels _ _ => some labels
  | .CreateConfigMapWithSshKey labels _ _ _ _ => some labels
  | .CreateShadowPod metaAndSpec _ _ _ => some metaAndSpec.Meta.Labels
  | _ => none

/-- The annotation map an event hands to the platform client, when it hands one. -/
def Event.annotations? : Event → Option StrMap
  | .CreateShadowPod metaAndSpec _ _ _ => some metaAndSpec.Meta.Annotations
  | _ => none

/-- The error a call returned, when it returned one. -/
def Event.error? : Event → Option GoError
  | .GetPod _ _ (.error e) => some e
  | .GetPodsByLabel _ _ (.error e) => some e
  | .GetDeploymentsByLabel _ _ (.error e) => some e
  | .GetServicesByLabel _ _ (.error e) => some e
  | .GetConfigMap _ _ (.error e) => some e
  | .CreateConfigMapWithSshKey _ _ _ _ (.error e) => some e
  | .CreateShadowPod _ _ _ (some e) => some e
  | .WaitPodReady _ _ (.error e) => some e
  | .IncreaseRef _ _ (some e) => some e
  | .Generate _ (.error e) => some e
  | .WritePrivateKey _ _ (some e) => some e
  | _ => none

/-- Outcome of a run: the returned value, the world afterwards and the calls made. -/
structure Out (σ α : Type) where
  val : α
  world : σ
  trace : List Event

/-- A computation over the world that records its calls. -/
def Exec (σ α : Type) : Type := σ → Out σ α

/-- Return without touching the world. -/
def Exec.pure {σ α : Type} (a : α) : Exec σ α := fun w => ⟨a, w, []⟩

/-- Sequencing: the second computation starts in the world the first one left. -/
def Exec.bind {σ α β : Type} (x : Exec σ α) (f : α → Exec σ β) : Exec σ β := fun w =>
  ⟨(f (x w).val (x w).world).val, (f (x w).val (x w).world).world,
    (x w).trace ++ (f (x w).val (x w).world).trace⟩

instance (σ : Type) : Monad (Exec σ) where
  pure := Exec.pure
  bind := Exec.bind

/-- Run one collaborator operation and record the call. -/
def Exec.call {σ α : Type} (op : σ → α × σ) (ev : α → Event) : Exec σ α := fun w =>
  ⟨(op w).1, (op w).2, [ev (op w).1]⟩

/-- Read the world without changing it (no call is recorded). -/
def Exec.read {σ α : Type} (f : σ → α) : Exec σ α := fun w => ⟨f w, w, []⟩

/-! ## Absent helpers of package `util` -/

/-- Modelled from the spec: `util.NewSSHGenerator` is not among the sources.  Section 3
describes the key material as the record of private key, public key and private key
path, "reconstructed from a config object's stored fields when reusing". -/
def NewSSHGenerator (privateKey publicKey privateKeyPath : String) : SSHGenerator :=
  { PrivateKey := privateKey, PublicKey := publicKey, PrivateKeyPath := privateKeyPath }

/-- Modelled from the spec: `util.Generate` is not among the sources.  Sections 4.4 and
4.5 give `generateKeyPair(path) → KeyMaterial`, "a fresh key pair at the computed
path"; the generation itself is the black box `Util.GenerateKeyPair`. -/
def Generate {σ : Type} (u : Util σ) (privateKeyPath : String) :
    Exec σ (Except GoError SSHGenerator) :=
  Exec.call
    (fun w =>
      (match (u.GenerateKeyPair privateKeyPath w).1 with
        | .error e => .error e
        | .ok kp => .ok (NewSSHGenerator kp.1 kp.2 privateKeyPath),
       (u.GenerateKeyPair privateKeyPath w).2))
    (Event.Generate privateKeyPath)

/-! ## The functions of `shadow_pod.go` -/

section Code

variable {σ : Type}

/-- Go `map[string]string{common.ControlBy: common.KubernetesTool}`, the selector of
the three queries of `GetKtResources`. -/
def controlSelector (c : Common) : StrMap :=
  (∅ : StrMap).insert c.ControlBy c.KubernetesTool

/-- Go `GetKtResources`; a nil slice is the empty list. -/
def GetKtResources (c : Common) (k : KubernetesInterface σ) (namespace_ : String) :
    Exec σ (List Pod × List Deployment × List Service × Option GoError) := do
  let sel : StrMap := controlSelector c
  match ← Exec.call (k.GetPodsByLabel sel namespace_) (Event.GetPodsByLabel sel namespace_) with
  | .error err => return ([], [], [], some err)
  | .ok pods =>
    match ← Exec.call (k.GetDeploymentsByLabel sel namespace_)
        (Event.GetDeploymentsByLabel sel namespace_) with
    | .error err => return ([], [], [], some err)
    | .ok deployments =>
      match ← Exec.call (k.GetServicesByLabel sel namespace_)
          (Event.GetServicesByLabel sel namespace_) with
      | .error err => return ([], [], [], some err)
      | .ok services => return (pods.Items, deployments.Items, services.Items, none)

/-- Go `shadowResult`. -/
def shadowResult (u : Util σ) (pod : Pod) (generator : SSHGenerator) :
    String × String × SSHCredential :=
  let podIP := pod.Status.PodIP
  let podName := pod.Name
  let credential := u.NewDefaultSSHCredential
  let credential := { credential with PrivateKeyPath := generator.PrivateKeyPath }
  (podIP, podName, credential)

/-- The error of `getShadowPod` for more than one matching pod (line 147). -/
def duplicateError (resourceMeta : ResourceMeta) : GoError :=
  errors.New ("Found more than one pod with name " ++ resourceMeta.Name
    ++ ", please make sure these is only one in namespace " ++ resourceMeta.Namespace)

/-- The error of `tryGetExistingShadowRelatedObjs` for a pod without its config map
(line 120). -/
def inconsistentError (resourceMeta : ResourceMeta) : GoError :=
  errors.New ("Found shadow pod but no configMap. Please delete the pod " ++ resourceMeta.Name)

/-- The key material `tryGetExistingShadowRelatedObjs` rebuilds from a config map
(line 124). -/
def storedGenerator (c : Common) (configMap : ConfigMap) (sshKeyMeta : SSHkeyMeta) :
    SSHGenerator :=
  NewSSHGenerator (configMap.Data.index c.SshAuthPrivateKey)
    (configMap.Data.index c.SshAuthKey) sshKeyMeta.PrivateKeyPath

/-- Go `getShadowPod`. -/
def getShadowPod (k : KubernetesInterface σ) (resourceMeta : ResourceMeta) :
    Exec σ (Option Pod × Option GoError) := do
  match ← Exec.call (k.GetPodsByLabel resourceMeta.Labels resourceMeta.Namespace)
      (Event.GetPodsByLabel resourceMeta.Labels resourceMeta.Namespace) with
  | .error err => return (none, some err)
  | .ok podList =>
    if podList.Items.length = 1 then
      match ← Exec.call (k.IncreaseRef resourceMeta.Name resourceMeta.Namespace)
          (Event.IncreaseRef resourceMeta.Name resourceMeta.Namespace) with
      | some err => return (none, some err)
      | none => return (podList.Items.head?, none)
    else if podList.Items.length > 1 then
      return (none, some (duplicateError resourceMeta))
    else return (none, none)

/-- Go `tryGetExistingShadowRelatedObjs`. -/
def tryGetExistingShadowRelatedObjs (c : Common) (u : Util σ) (k : KubernetesInterface σ)
    (resourceMeta : ResourceMeta) (sshKeyMeta : SSHkeyMeta) :
    Exec σ (Option Pod × Option SSHGenerator × Option GoError) := do
  match ← Exec.call (k.GetPod resourceMeta.Name resourceMeta.Namespace)
      (Event.GetPod resourceMeta.Name resourceMeta.Namespace) with
  | .error _ => return (none, none, none)
  | .ok _ =>
    match ← Exec.call (k.GetConfigMap sshKeyMeta.SshConfigMapName resourceMeta.Namespace)
        (Event.GetConfigMap sshKeyMeta.SshConfigMapName resourceMeta.Namespace) with
    | .error _ => return (none, none, some (inconsistentError resourceMeta))
    | .ok configMap =>
      let generator := storedGenerator c configMap sshKeyMeta
      match ← Exec.call
          (u.WritePrivateKey generator.PrivateKeyPath (configMap.Data.index c.SshAuthPrivateKey))
          (Event.WritePrivateKey generator.PrivateKeyPath
            (configMap.Data.index c.SshAuthPrivateKey)) with
      | some err => return (none, some generator, some err)
      | none =>
        let r ← getShadowPod k resourceMeta
        return (r.1, some generator, r.2)

/-- Go `metaAndSpec.Meta.Labels[common.KtName] = metaAndSpec.Meta.Name`. -/
def stampName (c : Common) (metaAndSpec : PodMetaAndSpec) : PodMetaAndSpec :=
  { metaAndSpec with
    Meta := { metaAndSpec.Meta with
      Labels := metaAndSpec.Meta.Labels.insert c.KtName metaAndSpec.Meta.Name } }

/-- Go `createAndGetPod`. -/
def createAndGetPod (c : Common) (k : KubernetesInterface σ) (metaAndSpec : PodMetaAndSpec)
    (sshcm : String) (options : DaemonOptions) : Exec σ (Except GoError Pod) := do
  let metaAndSpec := stampName c metaAndSpec
  match ← Exec.call (k.CreateShadowPod metaAndSpec sshcm options)
      (Event.CreateShadowPod metaAndSpec sshcm options) with
  | some err => return .error err
  | none =>
    Exec.call (k.WaitPodReady metaAndSpec.Meta.Name metaAndSpec.Meta.Namespace)
      (Event.WaitPodReady metaAndSpec.Meta.Name metaAndSpec.Meta.Namespace)

/-- Go `createShadow`. -/
def createShadow (c : Common) (u : Util σ) (k : KubernetesInterface σ)
    (metaAndSpec : PodMetaAndSpec) (sshKeyMeta : SSHkeyMeta) (options : DaemonOptions) :
    Exec σ (String × String × Option SSHCredential × Option GoError) := do
  match ← Generate u sshKeyMeta.PrivateKeyPath with
  | .error err => return ("", "", none, some err)
  | .ok generator =>
    match ← Exec.call
        (k.CreateConfigMapWithSshKey metaAndSpec.Meta.Labels sshKeyMeta.SshConfigMapName
          metaAndSpec.Meta.Namespace generator)
        (Event.CreateConfigMapWithSshKey metaAndSpec.Meta.Labels sshKeyMeta.SshConfigMapName
          metaAndSpec.Meta.Namespace generator) with
    | .error err => return ("", "", none, some err)
    | .ok _ =>
      match ← createAndGetPod c k metaAndSpec sshKeyMeta.SshConfigMapName options with
      | .error err => return ("", "", none, some err)
      | .ok pod =>
        let r := shadowResult u pod generator
        return (r.1, r.2.1, some r.2.2, none)

/-- The `resourceMeta` of `GetOrCreateShadow` (its lines 37 to 50): the base maps with
the configured overrides assigned over them, then the user annotation. -/
def mergedMeta (c : Common) (u : Util σ) (name : String) (options : DaemonOptions)
    (labels annotations : StrMap) (userName : String) : ResourceMeta :=
  let labels := labels.assignAll (u.String2Map options.WithLabels)
  let annotations := annotations.assignAll (u.String2Map options.WithAnnotations)
  let annotations := annotations.insert c.KtUser userName
  { Name := name, Namespace := options.Namespace, Labels := labels, Annotations := annotations }

/-- Go `options.ConnectOptions != nil && options.ConnectOptions.ShareShadow`. -/
def shareShadow (options : DaemonOptions) : Bool :=
  match options.ConnectOptions with
  | some connectOptions => connectOptions.ShareShadow
  | none => false

/-- Go `GetOrCreateShadow`. -/
def GetOrCreateShadow (c : Common) (u : Util σ) (k : KubernetesInterface σ) (name : String)
    (options : DaemonOptions) (labels annotations envs : StrMap) :
    Exec σ (String × String × Option SSHCredential × Option GoError) := do
  let privateKeyPath := u.PrivateKeyPath name
  let userName ← Exec.read u.GetLocalUserName
  let resourceMeta := mergedMeta c u name options labels annotations userName
  let sshKeyMeta : SSHkeyMeta := { SshConfigMapName := name, PrivateKeyPath := privateKeyPath }
  let podMeta : PodMetaAndSpec := { Meta := resourceMeta, Image := options.Image, Envs := envs }
  if shareShadow options then
    let r ← tryGetExistingShadowRelatedObjs c u k resourceMeta sshKeyMeta
    match r.2.2 with
    | some err2 => return ("", "", none, some err2)
    | none =>
      match r.1, r.2.1 with
      | some pod, some generator =>
        let res := shadowResult u pod generator
        return (res.1, res.2.1, some res.2.2, none)
      | _, _ => createShadow c u k podMeta sshKeyMeta options
  else createShadow c u k podMeta sshKeyMeta options

end Code

/-! ## A cluster and a local disk for the examples -/

/-- The world of the examples: cluster objects, the local disk, the reference counter,
the local user, and the operations that are made to fail. -/
structure FakeWorld where
  pods : List Pod
  configMaps : List ConfigMap
  deployments : List Deployment
  services : List Service
  files : StrMap
  refs : Nat
  user : String
  failing : List CallKind

/-- Label selection: every pair of the selector is carried by the pod. -/
def selects (sel : StrMap) (p : Pod) : Bool :=
  sel.entries.all (fun e => p.Labels.lookup e.1 == some e.2)

/-- The error an operation of the examples fails with. -/
def failure (op : String) : GoError := ⟨op ++ ": forbidden"⟩

/-- The error of a lookup by name that finds nothing. -/
def notFound (name : String) : GoError := ⟨"\"" ++ name ++ "\" not found"⟩

/-- A platform client over `FakeWorld`. -/
def fakeClient : KubernetesInterface FakeWorld where
  GetPod name ns w :=
    if CallKind.GetPod ∈ w.failing then (.error (failure "GetPod"), w)
    else match w.pods.find? (fun p => p.Name == name && p.Namespace == ns) with
      | some p => (.ok p, w)
      | none => (.error (notFound name), w)
  GetPodsByLabel sel ns w :=
    if CallKind.GetPodsByLabel ∈ w.failing then (.error (failure "GetPodsByLabel"), w)
    else (.ok ⟨w.pods.filter (fun p => p.Namespace == ns && selects sel p)⟩, w)
  GetDeploymentsByLabel _ _ w :=
    if CallKind.GetDeploymentsByLabel ∈ w.failing then
      (.error (failure "GetDeploymentsByLabel"), w)
    else (.ok ⟨w.deployments⟩, w)
  GetServicesByLabel _ _ w :=
    if CallKind.GetServicesByLabel ∈ w.failing then (.error (failure "GetServicesByLabel"), w)
    else (.ok ⟨w.services⟩, w)
  GetConfigMap name ns w :=
    if CallKind.GetConfigMap ∈ w.failing then (.error (failure "GetConfigMap"), w)
    else match w.configMaps.find? (fun m => m.Name == name && m.Namespace == ns) with
      | some m => (.ok m, w)
      | none => (.error (notFound name), w)
  CreateConfigMapWithSshKey _ name ns generator w :=
    if CallKind.CreateConfigMapWithSshKey ∈ w.failing then
      (.error (failure "CreateConfigMapWithSshKey"), w)
    else
      (.ok ⟨name, ns, ((∅ : StrMap).insert "authorized" generator.PublicKey).insert
          "privateKey" generator.PrivateKey⟩,
        { w with configMaps := ⟨name, ns, ((∅ : StrMap).insert "authorized"
            generator.PublicKey).insert "privateKey" generator.PrivateKey⟩ :: w.configMaps })
  CreateShadowPod metaAndSpec _ _ w :=
    if CallKind.CreateShadowPod ∈ w.failing then (some (failure "CreateShadowPod"), w)
    else
      (none, { w with pods := ⟨metaAndSpec.Meta.Name, metaAndSpec.Meta.Namespace,
          metaAndSpec.Meta.Labels, ⟨"10.0.0.7"⟩⟩ :: w.pods })
  WaitPodReady name ns w :=
    if CallKind.WaitPodReady ∈ w.failing then (.error (failure "WaitPodReady"), w)
    else match w.pods.find? (fun p => p.Name == name && p.Namespace == ns) with
      | some p => (.ok p, w)
      | none => (.error (notFound name), w)
  IncreaseRef _ _ w :=
    if CallKind.IncreaseRef ∈ w.failing then (some (failure "IncreaseRef"), w)
    else (none, { w with refs := w.refs + 1 })

/-- Split a list of characters at every occurrence of `sep`. -/
def splitAt (sep : Char) : List Char → List (List Char)
  | [] => [[]]
  | ch :: rest =>
    if ch = sep then [] :: splitAt sep rest
    else match splitAt sep rest with
      | [] => [[ch]]
      | first :: more => (ch :: first) :: more

/-- A stand-in for `util.String2Map` on strings of the form `k1=v1,k2=v2`: items
without `=` or with an empty key are skipped. -/
def fakeString2Map (str : String) : StrMap :=
  (splitAt ',' str.data).foldl
    (fun res item =>
      let key := item.takeWhile (fun ch => ch != '=')
      if key.length < item.length ∧ 0 < key.length then
        res.insert (String.mk key) (String.mk (item.drop (key.length + 1)))
      else res)
    ∅

/-- The helpers of package `util` over `FakeWorld`. -/
def fakeUtil : Util FakeWorld where
  PrivateKeyPath name := "/home/dev/.ktctl/pk/" ++ name ++ "_id_rsa"
  String2Map := fakeString2Map
  GetLocalUserName w := w.user
  GenerateKeyPair path w :=
    if CallKind.Generate ∈ w.failing then (.error (failure "Generate"), w)
    else (.ok ("fresh-private-key", "fresh-public-key"),
      { w with files := w.files.insert path "fresh-private-key" })
  WritePrivateKey path data w :=
    if CallKind.WritePrivateKey ∈ w.failing then (some (failure "WritePrivateKey"), w)
    else (none, { w with files := w.files.insert path data })
  NewDefaultSSHCredential := ⟨"127.0.0.1", "2222", "root", "root", ""⟩

/-- Values of the constants of package `common` for the examples. -/
def fakeCommon : Common :=
  { ControlBy := "control-by", KubernetesTool := "kt", KtName := "kt-name",
    KtUser := "kt-user", SshAuthPrivateKey := "privateKey", SshAuthKey := "authorized" }

/-- An empty cluster and disk, user `dev`, with the given operations failing. -/
def emptyWorld (failing : List CallKind) : FakeWorld :=
  { pods := [], configMaps := [], deployments := [], services := [], files := ∅,
    refs := 0, user := "dev", failing := failing }

/-- A cluster holding one object of each kind under the control label. -/
def inventoryWorld (failing : List CallKind) : FakeWorld :=
  { emptyWorld failing with
    pods := [⟨"shadow-a", "default", (∅ : StrMap).insert "control-by" "kt", ⟨"10.0.0.3"⟩⟩]
    deployments := [⟨"router"⟩]
    services := [⟨"mesh"⟩] }

/-- Options of the examples: namespace `default`, the shadow image, and the given
label and annotation overrides. -/
def fakeOptions (share : Option ConnectOptions) (withLabels withAnnotations : String) :
    DaemonOptions :=
  { Namespace := "default", Image := "kt-connect-shadow:stable", WithLabels := withLabels,
    WithAnnotations := withAnnotations, ConnectOptions := share }

/-- Base labels of the examples. -/
def baseLabels : StrMap :=
  ((∅ : StrMap).insert "control-by" "kt").insert "kt-component" "connect"

/-- Base annotations of the examples. -/
def baseAnnotations : StrMap :=
  (∅ : StrMap).insert "kt-config" "method=vpn"

/-- Environment variables of the examples. -/
def baseEnvs : StrMap :=
  (∅ : StrMap).insert "LOG_LEVEL" "info"

/-- The config map the examples store for a shadow: its key pair. -/
def storedConfigMap (name : String) : ConfigMap :=
  ⟨name, "default",
    ((∅ : StrMap).insert "authorized" "stored-public-key").insert "privateKey"
      "stored-private-key"⟩

/-- A running shadow pod of the examples carrying the base labels. -/
def runningPod (name ip : String) : Pod :=
  ⟨name, "default", baseLabels, ⟨ip⟩⟩

/-- The disk of the examples before a run: an older private key for `name`. -/
def staleDisk (name : String) : StrMap :=
  (∅ : StrMap).insert ("/home/dev/.ktctl/pk/" ++ name ++ "_id_rsa") "old-private-key"

/-- A pod of the examples that has the name of a shadow but not its labels. -/
def strayPod (name ip : String) : Pod :=
  ⟨name, "default", (∅ : StrMap).insert "app" "other", ⟨ip⟩⟩

/-- A cluster with the given pods and config maps, a disk holding the given files. -/
def clusterWorld (pods : List Pod) (configMaps : List ConfigMap) (files : StrMap)
    (failing : List CallKind) : FakeWorld :=
  { emptyWorld failing with pods := pods, configMaps := configMaps, files := files }

end KtConnect

namespace KtConnect

section Lemmas

variable {σ : Type}

@[simp] theorem Exec.pure_apply {α : Type} (a : α) (w : σ) :
    (Pure.pure a : Exec σ α) w = ⟨a, w, []⟩ := rfl

@[simp] theorem Exec.bind_apply {α β : Type} (x : Exec σ α) (f : α → Exec σ β) (w : σ) :
    (x >>= f) w = ⟨(f (x w).val (x w).world).val, (f (x w).val (x w).world).world,
      (x w).trace ++ (f (x w).val (x w).world).trace⟩ := rfl

@[simp] theorem Exec.call_apply {α : Type} (op : σ → α × σ) (ev : α → Event) (w : σ) :
    Exec.call op ev w = ⟨(op w).1, (op w).2, [ev (op w).1]⟩ := rfl

@[simp] theorem Exec.read_apply {α : Type} (f : σ → α) (w : σ) :
    Exec.read f w = ⟨f w, w, []⟩ := rfl

/-! ### Maps -/

theorem foldl_insert_lookup (src : List (Sigma fun _ : String => String))
    (hnd : src.NodupKeys) (dst : StrMap) (key : String) :
    (src.foldl (fun acc e => acc.insert e.1 e.2) dst).lookup key =
      match src.dlookup key with
      | some v => some v
      | none => dst.lookup key := by
  induction src generalizing dst with
  | nil => rfl
  | cons e rest ih =>
    obtain ⟨k0, v0⟩ := e
    have hnd2 := List.nodupKeys_cons.mp hnd
    rw [List.foldl_cons, ih hnd2.2]
    by_cases hk : key = k0
    · subst hk
      have hnone : rest.dlookup key = none := List.dlookup_eq_none.mpr hnd2.1
      rw [hnone, List.dlookup_cons_eq]
      exact AList.lookup_insert dst
    · rw [List.dlookup_cons_ne rest ⟨k0, v0⟩ hk]
      cases hr : rest.dlookup key with
      | some v => rfl
      | none => exact AList.lookup_insert_ne hk

/-- After `for k, v := range src { dst[k] = v }` a key of `src` carries its value in
`src`. -/
theorem StrMap.lookup_assignAll_of_some (dst src : StrMap) (key v : String)
    (h : src.lookup key = some v) : (dst.assignAll src).lookup key = some v := by
  have h2 : src.entries.dlookup key = some v := h
  rw [StrMap.assignAll, foldl_insert_lookup src.entries src.nodupKeys dst key, h2]

/-- After `for k, v := range src { dst[k] = v }` a key absent from `src` is as in `dst`. -/
theorem StrMap.lookup_assignAll_of_none (dst src : StrMap) (key : String)
    (h : src.lookup key = none) : (dst.assignAll src).lookup key = dst.lookup key := by
  have h2 : src.entries.dlookup key = none := h
  rw [StrMap.assignAll, foldl_insert_lookup src.entries src.nodupKeys dst key, h2]

/-! ### Outcomes of `createShadow` -/

theorem Generate_apply (u : Util σ) (path : String) (w : σ) :
    Generate u path w =
      ⟨(match (u.GenerateKeyPair path w).1 with
          | .error e => .error e
          | .ok kp => .ok (NewSSHGenerator kp.1 kp.2 path)),
        (u.GenerateKeyPair path w).2,
        [Event.Generate path (match (u.GenerateKeyPair path w).1 with
          | .error e => .error e
          | .ok kp => .ok (NewSSHGenerator kp.1 kp.2 path))]⟩ := rfl

theorem createShadow_of_generate_error (c : Common) (u : Util σ) (k : KubernetesInterface σ)
    (ms : PodMetaAndSpec) (skm : SSHkeyMeta) (options : DaemonOptions) (w w1 : σ) (e : GoError)
    (h1 : u.GenerateKeyPair skm.PrivateKeyPath w = (.error e, w1)) :
    createShadow c u k ms skm options w =
      ⟨("", "", none, some e), w1, [Event.Generate skm.PrivateKeyPath (.error e)]⟩ := by
  simp only [createShadow, Exec.bind_apply, Exec.pure_apply, Generate_apply, h1,
    List.append_nil]

theorem createShadow_of_configMap_error (c : Common) (u : Util σ) (k : KubernetesInterface σ)
    (ms : PodMetaAndSpec) (skm : SSHkeyMeta) (options : DaemonOptions) (w w1 w2 : σ)
    (kp : String × String) (e : GoError)
    (h1 : u.GenerateKeyPair skm.PrivateKeyPath w = (.ok kp, w1))
    (h2 : k.CreateConfigMapWithSshKey ms.Meta.Labels skm.SshConfigMapName ms.Meta.Namespace
      (NewSSHGenerator kp.1 kp.2 skm.PrivateKeyPath) w1 = (.error e, w2)) :
    createShadow c u k ms skm options w =
      ⟨("", "", none, some e), w2,
        [Event.Generate skm.PrivateKeyPath (.ok (NewSSHGenerator kp.1 kp.2 skm.PrivateKeyPath)),
         Event.CreateConfigMapWithSshKey ms.Meta.Labels skm.SshConfigMapName ms.Meta.Namespace
          (NewSSHGenerator kp.1 kp.2 skm.PrivateKeyPath) (.error e)]⟩ := by
  simp only [createShadow, Exec.bind_apply, Exec.pure_apply, Exec.call_apply, Generate_apply,
    h1, h2, List.append_nil, List.singleton_append]

theorem createShadow_of_createPod_error (c : Common) (u : Util σ) (k : KubernetesInterface σ)
    (ms : PodMetaAndSpec) (skm : SSHkeyMeta) (options : DaemonOptions) (w w1 w2 w3 : σ)
    (kp : String × String) (cm : ConfigMap) (e : GoError)
    (h1 : u.GenerateKeyPair skm.PrivateKeyPath w = (.ok kp, w1))
    (h2 : k.CreateConfigMapWithSshKey ms.Meta.Labels skm.SshConfigMapName ms.Meta.Namespace
      (NewSSHGenerator kp.1 kp.2 skm.PrivateKeyPath) w1 = (.ok cm, w2))
    (h3 : k.CreateShadowPod (stampName c ms) skm.SshConfigMapName options w2 = (some e, w3)) :
    createShadow c u k ms skm options w =
      ⟨("", "", none, some e), w3,
        [Event.Generate skm.PrivateKeyPath (.ok (NewSSHGenerator kp.1 kp.2 skm.PrivateKeyPath)),
         Event.CreateConfigMapWithSshKey ms.Meta.Labels skm.SshConfigMapName ms.Meta.Namespace
          (NewSSHGenerator kp.1 kp.2 skm.PrivateKeyPath) (.ok cm),
         Event.CreateShadowPod (stampName c ms) skm.SshConfigMapName options (some e)]⟩ := by
  simp only [createShadow, createAndGetPod, Exec.bind_apply, Exec.pure_apply, Exec.call_apply,
    Generate_apply, h1, h2, h3, List.append_nil, List.singleton_append, List.cons_append,
    List.nil_append]

theorem createShadow_of_wait_error (c : Common) (u : Util σ) (k : KubernetesInterface σ)
    (ms : PodMetaAndSpec) (skm : SSHkeyMeta) (options : DaemonOptions) (w w1 w2 w3 w4 : σ)
    (kp : String × String) (cm : ConfigMap) (e : GoError)
    (h1 : u.GenerateKeyPair skm.PrivateKeyPath w = (.ok kp, w1))
    (h2 : k.CreateConfigMapWithSshKey ms.Meta.Labels skm.SshConfigMapName ms.Meta.Namespace
      (NewSSHGenerator kp.1 kp.2 skm.PrivateKeyPath) w1 = (.ok cm, w2))
    (h3 : k.CreateShadowPod (stampName c ms) skm.SshConfigMapName options w2 = (none, w3))
    (h4 : k.WaitPodReady ms.Meta.Name ms.Meta.Namespace w3 = (.error e, w4)) :
    createShadow c u k ms skm options w =
      ⟨("", "", none, some e), w4,
        [Event.Generate skm.PrivateKeyPath (.ok (NewSSHGenerator kp.1 kp.2 skm.PrivateKeyPath)),
         Event.CreateConfigMapWithSshKey ms.Meta.Labels skm.SshConfigMapName ms.Meta.Namespace
          (NewSSHGenerator kp.1 kp.2 skm.PrivateKeyPath) (.ok cm),
         Event.CreateShadowPod (stampName c ms) skm.SshConfigMapName options none,
         Event.WaitPodReady ms.Meta.Name ms.Meta.Namespace (.error e)]⟩ := by
  have hn : (stampName c ms).Meta.Name = ms.Meta.Name := rfl
  have hs : (stampName c ms).Meta.Namespace = ms.Meta.Namespace := rfl
  simp only [createShadow, createAndGetPod, Exec.bind_apply, Exec.pure_apply, Exec.call_apply,
    Generate_apply, h1, h2, h3, hn, hs, h4, List.append_nil, List.singleton_append,
    List.cons_append, List.nil_append]

theorem createShadow_of_ready (c : Common) (u : Util σ) (k : KubernetesInterface σ)
    (ms : PodMetaAndSpec) (skm : SSHkeyMeta) (options : DaemonOptions) (w w1 w2 w3 w4 : σ)
    (kp : String × String) (cm : ConfigMap) (q : Pod)
    (h1 : u.GenerateKeyPair skm.PrivateKeyPath w = (.ok kp, w1))
    (h2 : k.CreateConfigMapWithSshKey ms.Meta.Labels skm.SshConfigMapName ms.Meta.Namespace
      (NewSSHGenerator kp.1 kp.2 skm.PrivateKeyPath) w1 = (.ok cm, w2))
    (h3 : k.CreateShadowPod (stampName c ms) skm.SshConfigMapName options w2 = (none, w3))
    (h4 : k.WaitPodReady ms.Meta.Name ms.Meta.Namespace w3 = (.ok q, w4)) :
    createShadow c u k ms skm options w =
      ⟨(q.Status.PodIP, q.Name,
          some { u.NewDefaultSSHCredential with PrivateKeyPath := skm.PrivateKeyPath }, none), w4,
        [Event.Generate skm.PrivateKeyPath (.ok (NewSSHGenerator kp.1 kp.2 skm.PrivateKeyPath)),
         Event.CreateConfigMapWithSshKey ms.Meta.Labels skm.SshConfigMapName ms.Meta.Namespace
          (NewSSHGenerator kp.1 kp.2 skm.PrivateKeyPath) (.ok cm),
         Event.CreateShadowPod (stampName c ms) skm.SshConfigMapName options none,
         Event.WaitPodReady ms.Meta.Name ms.Meta.Namespace (.ok q)]⟩ := by
  have hn : (stampName c ms).Meta.Name = ms.Meta.Name := rfl
  have hs : (stampName c ms).Meta.Namespace = ms.Meta.Namespace := rfl
  simp only [createShadow, createAndGetPod, Exec.bind_apply, Exec.pure_apply, Exec.call_apply,
    Generate_apply, h1, h2, h3, hn, hs, h4, List.append_nil, List.singleton_append,
    List.cons_append, List.nil_append]
  rfl

/-- Every run of `createShadow` calls, in this order and each at most once, key
generation, `CreateConfigMapWithSshKey`, `CreateShadowPod` and `WaitPodReady`. -/
theorem createShadow_kinds (c : Common) (u : Util σ) (k : KubernetesInterface σ)
    (ms : PodMetaAndSpec) (skm : SSHkeyMeta) (options : DaemonOptions) (w : σ) :
    kinds (createShadow c u k ms skm options w).trace <+:
      [CallKind.Generate, CallKind.CreateConfigMapWithSshKey, CallKind.CreateShadowPod,
        CallKind.WaitPodReady] := by
  rcases h1 : u.GenerateKeyPair skm.PrivateKeyPath w with ⟨_ | kp, w1⟩
  · rw [createShadow_of_generate_error c u k ms skm options w w1 _ h1]
    exact ⟨_, rfl⟩
  rcases h2 : k.CreateConfigMapWithSshKey ms.Meta.Labels skm.SshConfigMapName ms.Meta.Namespace
      (NewSSHGenerator kp.1 kp.2 skm.PrivateKeyPath) w1 with ⟨_ | cm, w2⟩
  · rw [createShadow_of_configMap_error c u k ms skm options w w1 w2 kp _ h1 h2]
    exact ⟨_, rfl⟩
  rcases h3 : k.CreateShadowPod (stampName c ms) skm.SshConfigMapName options w2 with ⟨_ | e, w3⟩
  · rcases h4 : k.WaitPodReady ms.Meta.Name ms.Meta.Namespace w3 with ⟨_ | q, w4⟩
    · rw [createShadow_of_wait_error c u k ms skm options w w1 w2 w3 w4 kp cm _ h1 h2 h3 h4]
      exact ⟨_, rfl⟩
    · rw [createShadow_of_ready c u k ms skm options w w1 w2 w3 w4 kp cm q h1 h2 h3 h4]
      exact ⟨_, rfl⟩
  · rw [createShadow_of_createPod_error c u k ms skm options w w1 w2 w3 kp cm e h1 h2 h3]
    exact ⟨_, rfl⟩

/-! ### Outcomes of discovery -/

theorem getShadowPod_of_list_error (k : KubernetesInterface σ) (rm : ResourceMeta) (w w1 : σ)
    (e : GoError) (h1 : k.GetPodsByLabel rm.Labels rm.Namespace w = (.error e, w1)) :
    getShadowPod k rm w =
      ⟨(none, some e), w1, [Event.GetPodsByLabel rm.Labels rm.Namespace (.error e)]⟩ := by
  simp only [getShadowPod, Exec.bind_apply, Exec.pure_apply, Exec.call_apply, h1,
    List.append_nil]

theorem getShadowPod_of_ref_error (k : KubernetesInterface σ) (rm : ResourceMeta) (w w1 w2 : σ)
    (pl : PodList) (e : GoError)
    (h1 : k.GetPodsByLabel rm.Labels rm.Namespace w = (.ok pl, w1))
    (hl : pl.Items.length = 1)
    (h2 : k.IncreaseRef rm.Name rm.Namespace w1 = (some e, w2)) :
    getShadowPod k rm w =
      ⟨(none, some e), w2,
        [Event.GetPodsByLabel rm.Labels rm.Namespace (.ok pl),
         Event.IncreaseRef rm.Name rm.Namespace (some e)]⟩ := by
  simp only [getShadowPod, Exec.bind_apply, Exec.pure_apply, Exec.call_apply, h1, hl, h2,
    if_true, List.append_nil, List.singleton_append]

theorem getShadowPod_of_one (k : KubernetesInterface σ) (rm : ResourceMeta) (w w1 w2 : σ)
    (pl : PodList)
    (h1 : k.GetPodsByLabel rm.Labels rm.Namespace w = (.ok pl, w1))
    (hl : pl.Items.length = 1)
    (h2 : k.IncreaseRef rm.Name rm.Namespace w1 = (none, w2)) :
    getShadowPod k rm w =
      ⟨(pl.Items.head?, none), w2,
        [Event.GetPodsByLabel rm.Labels rm.Namespace (.ok pl),
         Event.IncreaseRef rm.Name rm.Namespace none]⟩ := by
  simp only [getShadowPod, Exec.bind_apply, Exec.pure_apply, Exec.call_apply, h1, hl, h2,
    if_true, List.append_nil, List.singleton_append]

theorem getShadowPod_of_many (k : KubernetesInterface σ) (rm : ResourceMeta) (w w1 : σ)
    (pl : PodList)
    (h1 : k.GetPodsByLabel rm.Labels rm.Namespace w = (.ok pl, w1))
    (hl : 1 < pl.Items.length) :
    getShadowPod k rm w =
      ⟨(none, some (duplicateError rm)), w1,
        [Event.GetPodsByLabel rm.Labels rm.Namespace (.ok pl)]⟩ := by
  have hne : ¬ pl.Items.length = 1 := by omega
  have hgt : pl.Items.length > 1 := hl
  simp only [getShadowPod, Exec.bind_apply, Exec.pure_apply, Exec.call_apply, h1, hne, hgt,
    if_true, if_false, List.append_nil]

theorem getShadowPod_of_zero (k : KubernetesInterface σ) (rm : ResourceMeta) (w w1 : σ)
    (pl : PodList)
    (h1 : k.GetPodsByLabel rm.Labels rm.Namespace w = (.ok pl, w1))
    (hl : pl.Items.length = 0) :
    getShadowPod k rm w =
      ⟨(none, none), w1, [Event.GetPodsByLabel rm.Labels rm.Namespace (.ok pl)]⟩ := by
  have hne : ¬ pl.Items.length = 1 := by omega
  have hgt : ¬ pl.Items.length > 1 := by omega
  simp only [getShadowPod, Exec.bind_apply, Exec.pure_apply, Exec.call_apply, h1, hne, hgt,
    if_false, List.append_nil]

theorem tryGet_of_getPod_error (c : Common) (u : Util σ) (k : KubernetesInterface σ)
    (rm : ResourceMeta) (skm : SSHkeyMeta) (w w1 : σ) (e : GoError)
    (h1 : k.GetPod rm.Name rm.Namespace w = (.error e, w1)) :
    tryGetExistingShadowRelatedObjs c u k rm skm w =
      ⟨(none, none, none), w1, [Event.GetPod rm.Name rm.Namespace (.error e)]⟩ := by
  simp only [tryGetExistingShadowRelatedObjs, Exec.bind_apply, Exec.pure_apply,
    Exec.call_apply, h1, List.append_nil]

theorem tryGet_of_configMap_error (c : Common) (u : Util σ) (k : KubernetesInterface σ)
    (rm : ResourceMeta) (skm : SSHkeyMeta) (w w1 w2 : σ) (pod0 : Pod) (e : GoError)
    (h1 : k.GetPod rm.Name rm.Namespace w = (.ok pod0, w1))
    (h2 : k.GetConfigMap skm.SshConfigMapName rm.Namespace w1 = (.error e, w2)) :
    tryGetExistingShadowRelatedObjs c u k rm skm w =
      ⟨(none, none, some (inconsistentError rm)), w2,
        [Event.GetPod rm.Name rm.Namespace (.ok pod0),
         Event.GetConfigMap skm.SshConfigMapName rm.Namespace (.error e)]⟩ := by
  simp only [tryGetExistingShadowRelatedObjs, Exec.bind_apply, Exec.pure_apply,
    Exec.call_apply, h1, h2, List.append_nil, List.singleton_append]

theorem tryGet_of_write_error (c : Common) (u : Util σ) (k : KubernetesInterface σ)
    (rm : ResourceMeta) (skm : SSHkeyMeta) (w w1 w2 w3 : σ) (pod0 : Pod) (cm : ConfigMap)
    (e : GoError)
    (h1 : k.GetPod rm.Name rm.Namespace w = (.ok pod0, w1))
    (h2 : k.GetConfigMap skm.SshConfigMapName rm.Namespace w1 = (.ok cm, w2))
    (h3 : u.WritePrivateKey skm.PrivateKeyPath (cm.Data.index c.SshAuthPrivateKey) w2 =
      (some e, w3)) :
    tryGetExistingShadowRelatedObjs c u k rm skm w =
      ⟨(none, some (storedGenerator c cm skm), some e), w3,
        [Event.GetPod rm.Name rm.Namespace (.ok pod0),
         Event.GetConfigMap skm.SshConfigMapName rm.Namespace (.ok cm),
         Event.WritePrivateKey skm.PrivateKeyPath (cm.Data.index c.SshAuthPrivateKey)
          (some e)]⟩ := by
  have hp : (storedGenerator c cm skm).PrivateKeyPath = skm.PrivateKeyPath := rfl
  simp only [tryGetExistingShadowRelatedObjs, Exec.bind_apply, Exec.pure_apply,
    Exec.call_apply, h1, h2, hp, h3, List.append_nil, List.singleton_append, List.cons_append,
    List.nil_append]

theorem tryGet_of_written (c : Common) (u : Util σ) (k : KubernetesInterface σ)
    (rm : ResourceMeta) (skm : SSHkeyMeta) (w w1 w2 w3 : σ) (pod0 : Pod) (cm : ConfigMap)
    (h1 : k.GetPod rm.Name rm.Namespace w = (.ok pod0, w1))
    (h2 : k.GetConfigMap skm.SshConfigMapName rm.Namespace w1 = (.ok cm, w2))
    (h3 : u.WritePrivateKey skm.PrivateKeyPath (cm.Data.index c.SshAuthPrivateKey) w2 =
      (none, w3)) :
    tryGetExistingShadowRelatedObjs c u k rm skm w =
      ⟨((getShadowPod k rm w3).val.1, some (storedGenerator c cm skm),
          (getShadowPod k rm w3).val.2), (getShadowPod k rm w3).world,
        Event.GetPod rm.Name rm.Namespace (.ok pod0) ::
         Event.GetConfigMap skm.SshConfigMapName rm.Namespace (.ok cm) ::
         Event.WritePrivateKey skm.PrivateKeyPath (cm.Data.index c.SshAuthPrivateKey) none ::
         (getShadowPod k rm w3).trace⟩ := by
  have hp : (storedGenerator c cm skm).PrivateKeyPath = skm.PrivateKeyPath := rfl
  simp only [tryGetExistingShadowRelatedObjs, Exec.bind_apply, Exec.pure_apply,
    Exec.call_apply, h1, h2, hp, h3, List.append_nil, List.singleton_append, List.cons_append,
    List.nil_append]

/-! ### `GetOrCreateShadow` in terms of discovery and provisioning -/

theorem GetOrCreateShadow_unshared (c : Common) (u : Util σ) (k : KubernetesInterface σ)
    (name : String) (options : DaemonOptions) (labels annotations envs : StrMap) (w : σ)
    (hs : shareShadow options = false) :
    GetOrCreateShadow c u k name options labels annotations envs w =
      createShadow c u k
        ⟨mergedMeta c u name options labels annotations (u.GetLocalUserName w),
          options.Image, envs⟩ ⟨name, u.PrivateKeyPath name⟩ options w := by
  simp only [GetOrCreateShadow, Exec.bind_apply, Exec.read_apply, hs, List.nil_append]
  rfl

theorem GetOrCreateShadow_shared (c : Common) (u : Util σ) (k : KubernetesInterface σ)
    (name : String) (options : DaemonOptions) (labels annotations envs : StrMap) (w : σ)
    (hs : shareShadow options = true)
    (d : Out σ (Option Pod × Option SSHGenerator × Option GoError))
    (hd : tryGetExistingShadowRelatedObjs c u k
      (mergedMeta c u name options labels annotations (u.GetLocalUserName w))
      ⟨name, u.PrivateKeyPath name⟩ w = d) :
    GetOrCreateShadow c u k name options labels annotations envs w =
      match d.val.2.2 with
      | some err2 => ⟨("", "", none, some err2), d.world, d.trace⟩
      | none =>
        match d.val.1, d.val.2.1 with
        | some pod, some generator =>
          ⟨(pod.Status.PodIP, pod.Name,
            some { u.NewDefaultSSHCredential with PrivateKeyPath := generator.PrivateKeyPath },
            none), d.world, d.trace⟩
        | _, _ =>
          ⟨(createShadow c u k
              ⟨mergedMeta c u name options labels annotations (u.GetLocalUserName w),
                options.Image, envs⟩ ⟨name, u.PrivateKeyPath name⟩ options d.world).val,
            (createShadow c u k
              ⟨mergedMeta c u name options labels annotations (u.GetLocalUserName w),
                options.Image, envs⟩ ⟨name, u.PrivateKeyPath name⟩ options d.world).world,
            d.trace ++ (createShadow c u k
              ⟨mergedMeta c u name options labels annotations (u.GetLocalUserName w),
                options.Image, envs⟩ ⟨name, u.PrivateKeyPath name⟩ options d.world).trace⟩ := by
  simp only [GetOrCreateShadow, Exec.bind_apply, Exec.read_apply, hs, if_true, List.nil_append,
    hd]
  rcases d with ⟨⟨op, og, oe⟩, dw, dt⟩
  cases oe <;> cases op <;> cases og <;>
    first
      | rfl
      | (simp only [Exec.pure_apply, List.append_nil]; done)
      | (simp only [Exec.pure_apply, List.append_nil]; rfl)

/-! ### Case analyses -/

/-- The five ways a run of `createShadow` can go. -/
theorem createShadow_cases (c : Common) (u : Util σ) (k : KubernetesInterface σ)
    (ms : PodMetaAndSpec) (skm : SSHkeyMeta) (options : DaemonOptions) (w : σ) :
    (∃ e w1, createShadow c u k ms skm options w =
      ⟨("", "", none, some e), w1, [Event.Generate skm.PrivateKeyPath (.error e)]⟩) ∨
    (∃ g e w2, createShadow c u k ms skm options w =
      ⟨("", "", none, some e), w2,
        [Event.Generate skm.PrivateKeyPath (.ok g),
         Event.CreateConfigMapWithSshKey ms.Meta.Labels skm.SshConfigMapName ms.Meta.Namespace
          g (.error e)]⟩) ∨
    (∃ g cm e w3, createShadow c u k ms skm options w =
      ⟨("", "", none, some e), w3,
        [Event.Generate skm.PrivateKeyPath (.ok g),
         Event.CreateConfigMapWithSshKey ms.Meta.Labels skm.SshConfigMapName ms.Meta.Namespace
          g (.ok cm),
         Event.CreateShadowPod (stampName c ms) skm.SshConfigMapName options (some e)]⟩) ∨
    (∃ g cm e w4, createShadow c u k ms skm options w =
      ⟨("", "", none, some e), w4,
        [Event.Generate skm.PrivateKeyPath (.ok g),
         Event.CreateConfigMapWithSshKey ms.Meta.Labels skm.SshConfigMapName ms.Meta.Namespace
          g (.ok cm),
         Event.CreateShadowPod (stampName c ms) skm.SshConfigMapName options none,
         Event.WaitPodReady ms.Meta.Name ms.Meta.Namespace (.error e)]⟩) ∨
    (∃ g cm q w4, createShadow c u k ms skm options w =
      ⟨(q.Status.PodIP, q.Name,
          some { u.NewDefaultSSHCredential with PrivateKeyPath := skm.PrivateKeyPath }, none), w4,
        [Event.Generate skm.PrivateKeyPath (.ok g),
         Event.CreateConfigMapWithSshKey ms.Meta.Labels skm.SshConfigMapName ms.Meta.Namespace
          g (.ok cm),
         Event.CreateShadowPod (stampName c ms) skm.SshConfigMapName options none,
         Event.WaitPodReady ms.Meta.Name ms.Meta.Namespace (.ok q)]⟩) := by
  rcases h1 : u.GenerateKeyPair skm.PrivateKeyPath w with ⟨e | kp, w1⟩
  · exact Or.inl ⟨e, w1, createShadow_of_generate_error c u k ms skm options w w1 e h1⟩
  rcases h2 : k.CreateConfigMapWithSshKey ms.Meta.Labels skm.SshConfigMapName ms.Meta.Namespace
      (NewSSHGenerator kp.1 kp.2 skm.PrivateKeyPath) w1 with ⟨e | cm, w2⟩
  · exact Or.inr (Or.inl ⟨_, e, w2,
      createShadow_of_configMap_error c u k ms skm options w w1 w2 kp e h1 h2⟩)
  rcases h3 : k.CreateShadowPod (stampName c ms) skm.SshConfigMapName options w2 with ⟨_ | e, w3⟩
  · rcases h4 : k.WaitPodReady ms.Meta.Name ms.Meta.Namespace w3 with ⟨e | q, w4⟩
    · exact Or.inr (Or.inr (Or.inr (Or.inl ⟨_, cm, e, w4,
        createShadow_of_wait_error c u k ms skm options w w1 w2 w3 w4 kp cm e h1 h2 h3 h4⟩)))
    · exact Or.inr (Or.inr (Or.inr (Or.inr ⟨_, cm, q, w4,
        createShadow_of_ready c u k ms skm options w w1 w2 w3 w4 kp cm q h1 h2 h3 h4⟩)))
  · exact Or.inr (Or.inr (Or.inl ⟨_, cm, e, w3,
      createShadow_of_createPod_error c u k ms skm options w w1 w2 w3 kp cm e h1 h2 h3⟩))

/-- The five ways a run of `getShadowPod` can go. -/
theorem getShadowPod_cases (k : KubernetesInterface σ) (rm : ResourceMeta) (w : σ) :
    (∃ e w1, getShadowPod k rm w =
      ⟨(none, some e), w1, [Event.GetPodsByLabel rm.Labels rm.Namespace (.error e)]⟩) ∨
    (∃ p e w2, getShadowPod k rm w =
      ⟨(none, some e), w2,
        [Event.GetPodsByLabel rm.Labels rm.Namespace (.ok ⟨[p]⟩),
         Event.IncreaseRef rm.Name rm.Namespace (some e)]⟩) ∨
    (∃ p w2, getShadowPod k rm w =
      ⟨(some p, none), w2,
        [Event.GetPodsByLabel rm.Labels rm.Namespace (.ok ⟨[p]⟩),
         Event.IncreaseRef rm.Name rm.Namespace none]⟩) ∨
    (∃ pl w1, 1 < pl.Items.length ∧ getShadowPod k rm w =
      ⟨(none, some (duplicateError rm)), w1,
        [Event.GetPodsByLabel rm.Labels rm.Namespace (.ok pl)]⟩) ∨
    (∃ w1, getShadowPod k rm w =
      ⟨(none, none), w1, [Event.GetPodsByLabel rm.Labels rm.Namespace (.ok ⟨[]⟩)]⟩) := by
  rcases h1 : k.GetPodsByLabel rm.Labels rm.Namespace w with ⟨e | pl, w1⟩
  · exact Or.inl ⟨e, w1, getShadowPod_of_list_error k rm w w1 e h1⟩
  obtain ⟨items⟩ := pl
  match items, h1 with
  | [], h1 =>
    exact Or.inr (Or.inr (Or.inr (Or.inr ⟨w1, getShadowPod_of_zero k rm w w1 _ h1 rfl⟩)))
  | [p], h1 =>
    rcases h2 : k.IncreaseRef rm.Name rm.Namespace w1 with ⟨_ | e, w2⟩
    · exact Or.inr (Or.inr (Or.inl ⟨p, w2, getShadowPod_of_one k rm w w1 w2 _ h1 rfl h2⟩))
    · exact Or.inr (Or.inl ⟨p, e, w2, getShadowPod_of_ref_error k rm w w1 w2 _ e h1 rfl h2⟩)
  | p :: p2 :: rest, h1 =>
    exact Or.inr (Or.inr (Or.inr (Or.inl ⟨_, w1, by simp,
      getShadowPod_of_many k rm w w1 _ h1 (by simp)⟩)))

/-- The ways a run of `tryGetExistingShadowRelatedObjs` can go; in the last one the
enumeration of `getShadowPod` runs in the world the key-file write left. -/
theorem tryGet_cases (c : Common) (u : Util σ) (k : KubernetesInterface σ)
    (rm : ResourceMeta) (skm : SSHkeyMeta) (w : σ) :
    (∃ e w1, tryGetExistingShadowRelatedObjs c u k rm skm w =
      ⟨(none, none, none), w1, [Event.GetPod rm.Name rm.Namespace (.error e)]⟩) ∨
    (∃ pod0 e w2, tryGetExistingShadowRelatedObjs c u k rm skm w =
      ⟨(none, none, some (inconsistentError rm)), w2,
        [Event.GetPod rm.Name rm.Namespace (.ok pod0),
         Event.GetConfigMap skm.SshConfigMapName rm.Namespace (.error e)]⟩) ∨
    (∃ pod0 cm e w3, tryGetExistingShadowRelatedObjs c u k rm skm w =
      ⟨(none, some (storedGenerator c cm skm), some e), w3,
        [Event.GetPod rm.Name rm.Namespace (.ok pod0),
         Event.GetConfigMap skm.SshConfigMapName rm.Namespace (.ok cm),
         Event.WritePrivateKey skm.PrivateKeyPath (cm.Data.index c.SshAuthPrivateKey)
          (some e)]⟩) ∨
    (∃ pod0 cm w3, tryGetExistingShadowRelatedObjs c u k rm skm w =
      ⟨((getShadowPod k rm w3).val.1, some (storedGenerator c cm skm),
          (getShadowPod k rm w3).val.2), (getShadowPod k rm w3).world,
        Event.GetPod rm.Name rm.Namespace (.ok pod0) ::
         Event.GetConfigMap skm.SshConfigMapName rm.Namespace (.ok cm) ::
         Event.WritePrivateKey skm.PrivateKeyPath (cm.Data.index c.SshAuthPrivateKey) none ::
         (getShadowPod k rm w3).trace⟩) := by
  rcases h1 : k.GetPod rm.Name rm.Namespace w with ⟨e | pod0, w1⟩
  · exact Or.inl ⟨e, w1, tryGet_of_getPod_error c u k rm skm w w1 e h1⟩
  rcases h2 : k.GetConfigMap skm.SshConfigMapName rm.Namespace w1 with ⟨e | cm, w2⟩
  · exact Or.inr (Or.inl ⟨pod0, e, w2, tryGet_of_configMap_error c u k rm skm w w1 w2 pod0 e h1 h2⟩)
  rcases h3 : u.WritePrivateKey skm.PrivateKeyPath (cm.Data.index c.SshAuthPrivateKey) w2
    with ⟨_ | e, w3⟩
  · exact Or.inr (Or.inr (Or.inr ⟨pod0, cm, w3,
      tryGet_of_written c u k rm skm w w1 w2 w3 pod0 cm h1 h2 h3⟩))
  · exact Or.inr (Or.inr (Or.inl ⟨pod0, cm, e, w3,
      tryGet_of_write_error c u k rm skm w w1 w2 w3 pod0 cm e h1 h2 h3⟩))

/-- The ways a run of `GetOrCreateShadow` can go, for `rm` its resource meta, `pm` its
pod specification and `skm` its key meta: provisioning alone when sharing is disabled,
and with sharing enabled the outcomes of discovery, two of which (pod not found, no
matching pod) continue with provisioning. -/
theorem GetOrCreateShadow_cases (c : Common) (u : Util σ) (k : KubernetesInterface σ)
    (name : String) (options : DaemonOptions) (labels annotations envs : StrMap) (w : σ)
    (rm : ResourceMeta) (pm : PodMetaAndSpec) (skm : SSHkeyMeta)
    (hrm : rm = mergedMeta c u name options labels annotations (u.GetLocalUserName w))
    (hpm : pm = ⟨rm, options.Image, envs⟩) (hskm : skm = ⟨name, u.PrivateKeyPath name⟩) :
    (shareShadow options = false ∧
      GetOrCreateShadow c u k name options labels annotations envs w =
        createShadow c u k pm skm options w) ∨
    (shareShadow options = true ∧
     ((∃ e w1, GetOrCreateShadow c u k name options labels annotations envs w =
        ⟨(createShadow c u k pm skm options w1).val, (createShadow c u k pm skm options w1).world,
          Event.GetPod rm.Name rm.Namespace (.error e) ::
            (createShadow c u k pm skm options w1).trace⟩) ∨
      (∃ pod0 e w2, GetOrCreateShadow c u k name options labels annotations envs w =
        ⟨("", "", none, some (inconsistentError rm)), w2,
          [Event.GetPod rm.Name rm.Namespace (.ok pod0),
           Event.GetConfigMap skm.SshConfigMapName rm.Namespace (.error e)]⟩) ∨
      (∃ pod0 cm e w3, GetOrCreateShadow c u k name options labels annotations envs w =
        ⟨("", "", none, some e), w3,
          [Event.GetPod rm.Name rm.Namespace (.ok pod0),
           Event.GetConfigMap skm.SshConfigMapName rm.Namespace (.ok cm),
           Event.WritePrivateKey skm.PrivateKeyPath (cm.Data.index c.SshAuthPrivateKey)
            (some e)]⟩) ∨
      (∃ pod0 cm e w4, GetOrCreateShadow c u k name options labels annotations envs w =
        ⟨("", "", none, some e), w4,
          [Event.GetPod rm.Name rm.Namespace (.ok pod0),
           Event.GetConfigMap skm.SshConfigMapName rm.Namespace (.ok cm),
           Event.WritePrivateKey skm.PrivateKeyPath (cm.Data.index c.SshAuthPrivateKey) none,
           Event.GetPodsByLabel rm.Labels rm.Namespace (.error e)]⟩) ∨
      (∃ pod0 cm p e w5, GetOrCreateShadow c u k name options labels annotations envs w =
        ⟨("", "", none, some e), w5,
          [Event.GetPod rm.Name rm.Namespace (.ok pod0),
           Event.GetConfigMap skm.SshConfigMapName rm.Namespace (.ok cm),
           Event.WritePrivateKey skm.PrivateKeyPath (cm.Data.index c.SshAuthPrivateKey) none,
           Event.GetPodsByLabel rm.Labels rm.Namespace (.ok ⟨[p]⟩),
           Event.IncreaseRef rm.Name rm.Namespace (some e)]⟩) ∨
      (∃ pod0 cm p w5, GetOrCreateShadow c u k name options labels annotations envs w =
        ⟨(p.Status.PodIP, p.Name,
            some { u.NewDefaultSSHCredential with PrivateKeyPath := skm.PrivateKeyPath }, none),
          w5,
          [Event.GetPod rm.Name rm.Namespace (.ok pod0),
           Event.GetConfigMap skm.SshConfigMapName rm.Namespace (.ok cm),
           Event.WritePrivateKey skm.PrivateKeyPath (cm.Data.index c.SshAuthPrivateKey) none,
           Event.GetPodsByLabel rm.Labels rm.Namespace (.ok ⟨[p]⟩),
           Event.IncreaseRef rm.Name rm.Namespace none]⟩) ∨
      (∃ pod0 cm pl w4, 1 < pl.Items.length ∧
        GetOrCreateShadow c u k name options labels annotations envs w =
        ⟨("", "", none, some (duplicateError rm)), w4,
          [Event.GetPod rm.Name rm.Namespace (.ok pod0),
           Event.GetConfigMap skm.SshConfigMapName rm.Namespace (.ok cm),
           Event.WritePrivateKey skm.PrivateKeyPath (cm.Data.index c.SshAuthPrivateKey) none,
           Event.GetPodsByLabel rm.Labels rm.Namespace (.ok pl)]⟩) ∨
      (∃ pod0 cm w4, GetOrCreateShadow c u k name options labels annotations envs w =
        ⟨(createShadow c u k pm skm options w4).val, (createShadow c u k pm skm options w4).world,
          Event.GetPod rm.Name rm.Namespace (.ok pod0) ::
           Event.GetConfigMap skm.SshConfigMapName rm.Namespace (.ok cm) ::
           Event.WritePrivateKey skm.PrivateKeyPath (cm.Data.index c.SshAuthPrivateKey) none ::
           Event.GetPodsByLabel rm.Labels rm.Namespace (.ok ⟨[]⟩) ::
           (createShadow c u k pm skm options w4).trace⟩))) := by
  subst hrm hpm hskm
  cases hs : shareShadow options with
  | false =>
    exact Or.inl ⟨rfl, GetOrCreateShadow_unshared c u k name options labels annotations envs w hs⟩
  | true =>
    refine Or.inr ⟨rfl, ?_⟩
    rcases tryGet_cases c u k
      (mergedMeta c u name options labels annotations (u.GetLocalUserName w))
      ⟨name, u.PrivateKeyPath name⟩ w with
      ⟨e, w1, hd⟩ | ⟨pod0, e, w2, hd⟩ | ⟨pod0, cm, e, w3, hd⟩ | ⟨pod0, cm, w3, hd⟩
    · refine Or.inl ⟨e, w1, ?_⟩
      rw [GetOrCreateShadow_shared c u k name options labels annotations envs w hs _ hd]
      rfl
    · refine Or.inr (Or.inl ⟨pod0, e, w2, ?_⟩)
      rw [GetOrCreateShadow_shared c u k name options labels annotations envs w hs _ hd]
    · refine Or.inr (Or.inr (Or.inl ⟨pod0, cm, e, w3, ?_⟩))
      rw [GetOrCreateShadow_shared c u k name options labels annotations envs w hs _ hd]
    · rcases getShadowPod_cases k
        (mergedMeta c u name options labels annotations (u.GetLocalUserName w)) w3 with
        ⟨e, w4, hg⟩ | ⟨p, e, w5, hg⟩ | ⟨p, w5, hg⟩ | ⟨pl, w4, hl, hg⟩ | ⟨w4, hg⟩
      · rw [hg] at hd
        refine Or.inr (Or.inr (Or.inr (Or.inl ⟨pod0, cm, e, w4, ?_⟩)))
        rw [GetOrCreateShadow_shared c u k name options labels annotations envs w hs _ hd]
      · rw [hg] at hd
        refine Or.inr (Or.inr (Or.inr (Or.inr (Or.inl ⟨pod0, cm, p, e, w5, ?_⟩))))
        rw [GetOrCreateShadow_shared c u k name options labels annotations envs w hs _ hd]
      · rw [hg] at hd
        refine Or.inr (Or.inr (Or.inr (Or.inr (Or.inr (Or.inl ⟨pod0, cm, p, w5, ?_⟩)))))
        rw [GetOrCreateShadow_shared c u k name options labels annotations envs w hs _ hd]
        rfl
      · rw [hg] at hd
        refine Or.inr (Or.inr (Or.inr (Or.inr (Or.inr (Or.inr (Or.inl
          ⟨pod0, cm, pl, w4, hl, ?_⟩))))))
        rw [GetOrCreateShadow_shared c u k name options labels annotations envs w hs _ hd]
      · rw [hg] at hd
        refine Or.inr (Or.inr (Or.inr (Or.inr (Or.inr (Or.inr (Or.inr ⟨pod0, cm, w4, ?_⟩))))))
        rw [GetOrCreateShadow_shared c u k name options labels annotations envs w hs _ hd]
        rfl

/-! ### Properties of every run -/

/-- An error returned by any call of `createShadow` is the error `createShadow` returns. -/
theorem createShadow_propagates (c : Common) (u : Util σ) (k : KubernetesInterface σ)
    (ms : PodMetaAndSpec) (skm : SSHkeyMeta) (options : DaemonOptions) (w : σ) :
    ∀ ev ∈ (createShadow c u k ms skm options w).trace, ∀ e, ev.error? = some e →
      (createShadow c u k ms skm options w).val.2.2.2 = some e := by
  rcases createShadow_cases c u k ms skm options w with
    ⟨e, w1, h⟩ | ⟨g, e, w2, h⟩ | ⟨g, cm, e, w3, h⟩ | ⟨g, cm, e, w4, h⟩ | ⟨g, cm, q, w4, h⟩ <;>
  · rw [h]
    simp [Event.error?]

/-- The label and annotation maps `createShadow` hands to the platform client: the
labels of the pod specification, with the name label added for `CreateShadowPod`, and
the annotations of the pod specification. -/
theorem createShadow_event_maps (c : Common) (u : Util σ) (k : KubernetesInterface σ)
    (ms : PodMetaAndSpec) (skm : SSHkeyMeta) (options : DaemonOptions) (w : σ) :
    ∀ ev ∈ (createShadow c u k ms skm options w).trace,
      (∀ m, ev.labels? = some m →
        (ev.kind = CallKind.CreateShadowPod ∧
          m = ms.Meta.Labels.insert c.KtName ms.Meta.Name) ∨
        (ev.kind ≠ CallKind.CreateShadowPod ∧ m = ms.Meta.Labels)) ∧
      (∀ a, ev.annotations? = some a → a = ms.Meta.Annotations) := by
  rcases createShadow_cases c u k ms skm options w with
    ⟨e, w1, h⟩ | ⟨g, e, w2, h⟩ | ⟨g, cm, e, w3, h⟩ | ⟨g, cm, e, w4, h⟩ | ⟨g, cm, q, w4, h⟩ <;>
  · rw [h]
    simp [Event.labels?, Event.annotations?, Event.kind, stampName, eq_comm]

/-- The label and annotation maps `GetOrCreateShadow` hands to the platform client. -/
theorem GetOrCreateShadow_event_maps (c : Common) (u : Util σ) (k : KubernetesInterface σ)
    (name : String) (options : DaemonOptions) (labels annotations envs : StrMap) (w : σ) :
    ∀ ev ∈ (GetOrCreateShadow c u k name options labels annotations envs w).trace,
      (∀ m, ev.labels? = some m →
        (ev.kind = CallKind.CreateShadowPod ∧
          m = (labels.assignAll (u.String2Map options.WithLabels)).insert c.KtName name) ∨
        (ev.kind ≠ CallKind.CreateShadowPod ∧
          m = labels.assignAll (u.String2Map options.WithLabels))) ∧
      (∀ a, ev.annotations? = some a →
        a = (annotations.assignAll (u.String2Map options.WithAnnotations)).insert c.KtUser
          (u.GetLocalUserName w)) := by
  have hcs := fun w1 => createShadow_event_maps c u k
    ⟨mergedMeta c u name options labels annotations (u.GetLocalUserName w), options.Image, envs⟩
    ⟨name, u.PrivateKeyPath name⟩ options w1
  rcases GetOrCreateShadow_cases c u k name options labels annotations envs w _ _ _
    rfl rfl rfl with ⟨-, hd⟩ | ⟨-, hc⟩
  · rw [hd]
    exact hcs w
  rcases hc with ⟨e, w1, hd⟩ | ⟨pod0, e, w2, hd⟩ | ⟨pod0, cm, e, w3, hd⟩ |
    ⟨pod0, cm, e, w4, hd⟩ | ⟨pod0, cm, p, e, w5, hd⟩ | ⟨pod0, cm, p, w5, hd⟩ |
    ⟨pod0, cm, pl2, w4, hl2, hd⟩ | ⟨pod0, cm, w4, hd⟩
  · rw [hd]
    intro ev hev
    rcases List.mem_cons.mp hev with rfl | hev
    · simp [Event.labels?, Event.annotations?]
    · exact hcs w1 ev hev
  · rw [hd]; simp [Event.labels?, Event.annotations?, Event.kind, mergedMeta, eq_comm]
  · rw [hd]; simp [Event.labels?, Event.annotations?, Event.kind, mergedMeta, eq_comm]
  · rw [hd]; simp [Event.labels?, Event.annotations?, Event.kind, mergedMeta, eq_comm]
  · rw [hd]; simp [Event.labels?, Event.annotations?, Event.kind, mergedMeta, eq_comm]
  · rw [hd]; simp [Event.labels?, Event.annotations?, Event.kind, mergedMeta, eq_comm]
  · rw [hd]; simp [Event.labels?, Event.annotations?, Event.kind, mergedMeta, eq_comm]
  · rw [hd]
    intro ev hev
    simp only [List.mem_cons] at hev
    rcases hev with rfl | rfl | rfl | rfl | hev
    · simp [Event.labels?, Event.annotations?]
    · simp [Event.labels?, Event.annotations?]
    · simp [Event.labels?, Event.annotations?]
    · simp [Event.labels?, Event.annotations?, Event.kind, mergedMeta, eq_comm]
    · exact hcs w4 ev hev

/-- No call of `createShadow` is a `GetPod` or a `GetConfigMap`. -/
theorem createShadow_no_lookup (c : Common) (u : Util σ) (k : KubernetesInterface σ)
    (ms : PodMetaAndSpec) (skm : SSHkeyMeta) (options : DaemonOptions) (w : σ) :
    ∀ ev ∈ (createShadow c u k ms skm options w).trace,
      ev.kind ≠ CallKind.GetPod ∧ ev.kind ≠ CallKind.GetConfigMap := by
  intro ev hev
  have hk := (createShadow_kinds c u k ms skm options w).subset
    (List.mem_map_of_mem Event.kind hev)
  constructor <;> intro h <;> rw [h] at hk <;> simp at hk

/-! ### Messages -/

theorem strContains_append_right (a b : String) : strContains (a ++ b) b :=
  ⟨a.data, [], by simp⟩

theorem strContains_append_left (a b : String) : strContains (a ++ b) a :=
  ⟨[], b.data, by simp⟩

theorem strContains_append_of_left (a b sub : String) (h : strContains a sub) :
    strContains (a ++ b) sub := by
  obtain ⟨pre, post, hx⟩ := h
  exact ⟨pre, post ++ b.data, by simp [← hx]⟩

theorem inconsistentError_names_pod (rm : ResourceMeta) :
    strContains (inconsistentError rm).Error rm.Name :=
  strContains_append_right _ _

theorem duplicateError_names_resource (rm : ResourceMeta) :
    strContains (duplicateError rm).Error rm.Name :=
  strContains_append_of_left _ _ _
    (strContains_append_of_left _ _ _ (strContains_append_right _ _))

theorem duplicateError_names_namespace (rm : ResourceMeta) :
    strContains (duplicateError rm).Error rm.Namespace :=
  strContains_append_right _ _

theorem shareShadow_of_enabled (options : DaemonOptions) (co : ConnectOptions)
    (hco : options.ConnectOptions = some co) (hshare : co.ShareShadow = true) :
    shareShadow options = true := by
  simp only [shareShadow, hco, hshare]

theorem shareShadow_of_disabled (options : DaemonOptions)
    (h : options.ConnectOptions = none ∨
      ∃ co, options.ConnectOptions = some co ∧ co.ShareShadow = false) :
    shareShadow options = false := by
  rcases h with h | ⟨co, hco, hshare⟩
  · simp only [shareShadow, h]
  · simp only [shareShadow, hco, hshare]

end Lemmas

section Properties

variable {σ : Type}

/-- C10: `GetKtResources` fails fast with no partial result.  If the pod query fails
with `e`, the result is `e` with three nil lists and no other query is issued; if the
deployment query fails, the service query is not issued; if the service query fails the
result is its error with three nil lists; if the three queries succeed the result is
their item lists and a nil error.  Every query carries the fixed selector
`ControlBy = KubernetesTool` and the given namespace. -/
theorem GetKtResources_fail_fast (c : Common) (k : KubernetesInterface σ) (ns : String) (w : σ) :
    (∀ e w1, k.GetPodsByLabel (controlSelector c) ns w = (.error e, w1) →
      GetKtResources c k ns w =
        ⟨([], [], [], some e), w1, [Event.GetPodsByLabel (controlSelector c) ns (.error e)]⟩) ∧
    (∀ pods w1 e w2, k.GetPodsByLabel (controlSelector c) ns w = (.ok pods, w1) →
      k.GetDeploymentsByLabel (controlSelector c) ns w1 = (.error e, w2) →
      GetKtResources c k ns w =
        ⟨([], [], [], some e), w2,
          [Event.GetPodsByLabel (controlSelector c) ns (.ok pods),
           Event.GetDeploymentsByLabel (controlSelector c) ns (.error e)]⟩) ∧
    (∀ pods w1 deployments w2 e w3,
      k.GetPodsByLabel (controlSelector c) ns w = (.ok pods, w1) →
      k.GetDeploymentsByLabel (controlSelector c) ns w1 = (.ok deployments, w2) →
      k.GetServicesByLabel (controlSelector c) ns w2 = (.error e, w3) →
      GetKtResources c k ns w =
        ⟨([], [], [], some e), w3,
          [Event.GetPodsByLabel (controlSelector c) ns (.ok pods),
           Event.GetDeploymentsByLabel (controlSelector c) ns (.ok deployments),
           Event.GetServicesByLabel (controlSelector c) ns (.error e)]⟩) ∧
    (∀ pods w1 deployments w2 services w3,
      k.GetPodsByLabel (controlSelector c) ns w = (.ok pods, w1) →
      k.GetDeploymentsByLabel (controlSelector c) ns w1 = (.ok deployments, w2) →
      k.GetServicesByLabel (controlSelector c) ns w2 = (.ok services, w3) →
      GetKtResources c k ns w =
        ⟨(pods.Items, deployments.Items, services.Items, none), w3,
          [Event.GetPodsByLabel (controlSelector c) ns (.ok pods),
           Event.GetDeploymentsByLabel (controlSelector c) ns (.ok deployments),
           Event.GetServicesByLabel (controlSelector c) ns (.ok services)]⟩) := by
  refine ⟨?_, ?_, ?_, ?_⟩
  · intro e w1 h1
    simp only [GetKtResources, Exec.bind_apply, Exec.call_apply, Exec.pure_apply, h1,
      List.append_nil]
  · intro pods w1 e w2 h1 h2
    simp only [GetKtResources, Exec.bind_apply, Exec.call_apply, Exec.pure_apply, h1, h2,
      List.append_nil, List.singleton_append]
  · intro pods w1 deployments w2 e w3 h1 h2 h3
    simp only [GetKtResources, Exec.bind_apply, Exec.call_apply, Exec.pure_apply, h1, h2, h3,
      List.append_nil, List.singleton_append]
  · intro pods w1 deployments w2 services w3 h1 h2 h3
    simp only [GetKtResources, Exec.bind_apply, Exec.call_apply, Exec.pure_apply, h1, h2, h3,
      List.append_nil, List.singleton_append]

/-- The four cases of `GetKtResources_fail_fast` on the example cluster: each query
failing in turn, and all three succeeding. -/
theorem GetKtResources_fail_fast_witness :
    (GetKtResources fakeCommon fakeClient "default"
        (inventoryWorld [CallKind.GetPodsByLabel])).val =
      ([], [], [], some (failure "GetPodsByLabel")) ∧
    (GetKtResources fakeCommon fakeClient "default"
        (inventoryWorld [CallKind.GetDeploymentsByLabel])).val =
      ([], [], [], some (failure "GetDeploymentsByLabel")) ∧
    (GetKtResources fakeCommon fakeClient "default"
        (inventoryWorld [CallKind.GetServicesByLabel])).val =
      ([], [], [], some (failure "GetServicesByLabel")) ∧
    (GetKtResources fakeCommon fakeClient "default" (inventoryWorld [])).val =
      ([⟨"shadow-a", "default", (∅ : StrMap).insert "control-by" "kt", ⟨"10.0.0.3"⟩⟩],
        [⟨"router"⟩], [⟨"mesh"⟩], none) :=
  ⟨congrArg Out.val ((GetKtResources_fail_fast fakeCommon fakeClient "default"
      (inventoryWorld [CallKind.GetPodsByLabel])).1 _ _ rfl),
   congrArg Out.val ((GetKtResources_fail_fast fakeCommon fakeClient "default"
      (inventoryWorld [CallKind.GetDeploymentsByLabel])).2.1 _ _ _ _ rfl rfl),
   congrArg Out.val ((GetKtResources_fail_fast fakeCommon fakeClient "default"
      (inventoryWorld [CallKind.GetServicesByLabel])).2.2.1 _ _ _ _ _ _ rfl rfl rfl),
   congrArg Out.val ((GetKtResources_fail_fast fakeCommon fakeClient "default"
      (inventoryWorld [])).2.2.2 _ _ _ _ _ _ rfl rfl rfl)⟩

/-- C8: `createShadow` aborts in order.  If key generation fails, the only call is the
key generation (no platform client call); if `CreateConfigMapWithSshKey` fails, the calls
are key generation and that creation (`CreateShadowPod` and `WaitPodReady` are not
called); if `CreateShadowPod` fails, `WaitPodReady` is not called.  In each case the
result is empty `podIP` and `podName`, a nil credential and the failing step's error, and
the world is the one the failing call left: nothing already created is deleted. -/
theorem createShadow_aborts_in_order (c : Common) (u : Util σ) (k : KubernetesInterface σ)
    (ms : PodMetaAndSpec) (skm : SSHkeyMeta) (options : DaemonOptions) (w : σ) :
    (∀ e w1, u.GenerateKeyPair skm.PrivateKeyPath w = (.error e, w1) →
      createShadow c u k ms skm options w =
        ⟨("", "", none, some e), w1, [Event.Generate skm.PrivateKeyPath (.error e)]⟩) ∧
    (∀ kp w1 e w2, u.GenerateKeyPair skm.PrivateKeyPath w = (.ok kp, w1) →
      k.CreateConfigMapWithSshKey ms.Meta.Labels skm.SshConfigMapName ms.Meta.Namespace
        (NewSSHGenerator kp.1 kp.2 skm.PrivateKeyPath) w1 = (.error e, w2) →
      createShadow c u k ms skm options w =
        ⟨("", "", none, some e), w2,
          [Event.Generate skm.PrivateKeyPath
            (.ok (NewSSHGenerator kp.1 kp.2 skm.PrivateKeyPath)),
           Event.CreateConfigMapWithSshKey ms.Meta.Labels skm.SshConfigMapName
            ms.Meta.Namespace (NewSSHGenerator kp.1 kp.2 skm.PrivateKeyPath) (.error e)]⟩) ∧
    (∀ kp w1 cm w2 e w3, u.GenerateKeyPair skm.PrivateKeyPath w = (.ok kp, w1) →
      k.CreateConfigMapWithSshKey ms.Meta.Labels skm.SshConfigMapName ms.Meta.Namespace
        (NewSSHGenerator kp.1 kp.2 skm.PrivateKeyPath) w1 = (.ok cm, w2) →
      k.CreateShadowPod (stampName c ms) skm.SshConfigMapName options w2 = (some e, w3) →
      createShadow c u k ms skm options w =
        ⟨("", "", none, some e), w3,
          [Event.Generate skm.PrivateKeyPath
            (.ok (NewSSHGenerator kp.1 kp.2 skm.PrivateKeyPath)),
           Event.CreateConfigMapWithSshKey ms.Meta.Labels skm.SshConfigMapName
            ms.Meta.Namespace (NewSSHGenerator kp.1 kp.2 skm.PrivateKeyPath) (.ok cm),
           Event.CreateShadowPod (stampName c ms) skm.SshConfigMapName options (some e)]⟩) :=
  ⟨fun e w1 h1 => createShadow_of_generate_error c u k ms skm options w w1 e h1,
   fun kp w1 e w2 h1 h2 => createShadow_of_configMap_error c u k ms skm options w w1 w2 kp e h1 h2,
   fun kp w1 cm w2 e w3 h1 h2 h3 =>
    createShadow_of_createPod_error c u k ms skm options w w1 w2 w3 kp cm e h1 h2 h3⟩

/-- The three aborts of `createShadow_aborts_in_order` on the example cluster: what is
returned, and what the cluster holds afterwards (after a failed pod creation the config
map created before it is still there). -/
theorem createShadow_aborts_in_order_witness :
    (createShadow fakeCommon fakeUtil fakeClient ⟨⟨"shadow-t1", "default", baseLabels, ∅⟩,
        "kt-connect-shadow:stable", baseEnvs⟩ ⟨"shadow-t1", "/pk/shadow-t1"⟩
        (fakeOptions none "" "") (emptyWorld [CallKind.Generate])).val =
      ("", "", none, some (failure "Generate")) ∧
    (createShadow fakeCommon fakeUtil fakeClient ⟨⟨"shadow-t1", "default", baseLabels, ∅⟩,
        "kt-connect-shadow:stable", baseEnvs⟩ ⟨"shadow-t1", "/pk/shadow-t1"⟩
        (fakeOptions none "" "") (emptyWorld [CallKind.CreateConfigMapWithSshKey])).val =
      ("", "", none, some (failure "CreateConfigMapWithSshKey")) ∧
    (createShadow fakeCommon fakeUtil fakeClient ⟨⟨"shadow-t1", "default", baseLabels, ∅⟩,
        "kt-connect-shadow:stable", baseEnvs⟩ ⟨"shadow-t1", "/pk/shadow-t1"⟩
        (fakeOptions none "" "") (emptyWorld [CallKind.CreateShadowPod])).val =
      ("", "", none, some (failure "CreateShadowPod")) ∧
    (createShadow fakeCommon fakeUtil fakeClient ⟨⟨"shadow-t1", "default", baseLabels, ∅⟩,
        "kt-connect-shadow:stable", baseEnvs⟩ ⟨"shadow-t1", "/pk/shadow-t1"⟩
        (fakeOptions none "" "") (emptyWorld [CallKind.CreateShadowPod])).world.configMaps.map
        ConfigMap.Name = ["shadow-t1"] :=
  ⟨congrArg Out.val ((createShadow_aborts_in_order fakeCommon fakeUtil fakeClient _ _ _
      (emptyWorld [CallKind.Generate])).1 _ _ rfl),
   congrArg Out.val ((createShadow_aborts_in_order fakeCommon fakeUtil fakeClient _ _ _
      (emptyWorld [CallKind.CreateConfigMapWithSshKey])).2.1 _ _ _ _ rfl rfl),
   congrArg Out.val ((createShadow_aborts_in_order fakeCommon fakeUtil fakeClient _ _ _
      (emptyWorld [CallKind.CreateShadowPod])).2.2 _ _ _ _ _ _ rfl rfl rfl),
   congrArg (fun o => o.world.configMaps.map ConfigMap.Name)
    ((createShadow_aborts_in_order fakeCommon fakeUtil fakeClient _ _ _
      (emptyWorld [CallKind.CreateShadowPod])).2.2 _ _ _ _ _ _ rfl rfl rfl)⟩

/-- C2: the fresh-provision path of `GetOrCreateShadow`.  With sharing disabled
(`ConnectOptions` nil or `ShareShadow = false`) no run calls `GetPod`, `GetConfigMap`,
`GetPodsByLabel` or `IncreaseRef`; and when key generation, `CreateConfigMapWithSshKey`,
`CreateShadowPod` and `WaitPodReady` succeed, the calls are exactly these four: the config
map is created under `name` in `options.Namespace`, the pod is created from
`options.Image` and `envs`, and the result is the IP and name of the pod `q` that
`WaitPodReady` returned, a credential with `PrivateKeyPath = PrivateKeyPath(name)` and a
nil error. -/
theorem GetOrCreateShadow_fresh (c : Common) (u : Util σ) (k : KubernetesInterface σ)
    (name : String) (options : DaemonOptions) (labels annotations envs : StrMap) (w : σ)
    (hdis : options.ConnectOptions = none ∨
      ∃ co, options.ConnectOptions = some co ∧ co.ShareShadow = false) :
    (∀ kind ∈ [CallKind.GetPod, CallKind.GetConfigMap, CallKind.GetPodsByLabel,
        CallKind.IncreaseRef],
      kind ∉ kinds (GetOrCreateShadow c u k name options labels annotations envs w).trace) ∧
    (∀ kp w1 cm w2 w3 q w4,
      u.GenerateKeyPair (u.PrivateKeyPath name) w = (.ok kp, w1) →
      k.CreateConfigMapWithSshKey (labels.assignAll (u.String2Map options.WithLabels)) name
        options.Namespace (NewSSHGenerator kp.1 kp.2 (u.PrivateKeyPath name)) w1 = (.ok cm, w2) →
      k.CreateShadowPod
        (stampName c ⟨mergedMeta c u name options labels annotations (u.GetLocalUserName w),
          options.Image, envs⟩) name options w2 = (none, w3) →
      k.WaitPodReady name options.Namespace w3 = (.ok q, w4) →
      GetOrCreateShadow c u k name options labels annotations envs w =
        ⟨(q.Status.PodIP, q.Name,
            some { u.NewDefaultSSHCredential with PrivateKeyPath := u.PrivateKeyPath name },
            none), w4,
          [Event.Generate (u.PrivateKeyPath name)
            (.ok (NewSSHGenerator kp.1 kp.2 (u.PrivateKeyPath name))),
           Event.CreateConfigMapWithSshKey (labels.assignAll (u.String2Map options.WithLabels))
            name options.Namespace (NewSSHGenerator kp.1 kp.2 (u.PrivateKeyPath name)) (.ok cm),
           Event.CreateShadowPod
            (stampName c ⟨mergedMeta c u name options labels annotations (u.GetLocalUserName w),
              options.Image, envs⟩) name options none,
           Event.WaitPodReady name options.Namespace (.ok q)]⟩ ∧
      (stampName c ⟨mergedMeta c u name options labels annotations (u.GetLocalUserName w),
          options.Image, envs⟩).Image = options.Image ∧
      (stampName c ⟨mergedMeta c u name options labels annotations (u.GetLocalUserName w),
          options.Image, envs⟩).Envs = envs) := by
  have hs := shareShadow_of_disabled options hdis
  refine ⟨?_, ?_⟩
  · intro kind hk hmem
    rw [GetOrCreateShadow_unshared c u k name options labels annotations envs w hs] at hmem
    have hsub := (createShadow_kinds c u k
      ⟨mergedMeta c u name options labels annotations (u.GetLocalUserName w), options.Image,
        envs⟩ ⟨name, u.PrivateKeyPath name⟩ options w).subset hmem
    revert hk hsub
    cases kind <;> simp
  · intro kp w1 cm w2 w3 q w4 h1 h2 h3 h4
    refine ⟨?_, rfl, rfl⟩
    rw [GetOrCreateShadow_unshared c u k name options labels annotations envs w hs]
    exact createShadow_of_ready c u k _ ⟨name, u.PrivateKeyPath name⟩ options w w1 w2 w3 w4 kp
      cm q h1 h2 h3 h4

/-- Scenario A on the example cluster: `shadow-t1` with sharing disabled creates the
config map `shadow-t1` and a pod, and returns the deterministic key path. -/
theorem GetOrCreateShadow_fresh_witness :
    (GetOrCreateShadow fakeCommon fakeUtil fakeClient "shadow-t1" (fakeOptions none "" "")
        baseLabels baseAnnotations baseEnvs (emptyWorld [])).val =
      ("10.0.0.7", "shadow-t1",
        some ⟨"127.0.0.1", "2222", "root", "root", "/home/dev/.ktctl/pk/shadow-t1_id_rsa"⟩,
        none) ∧
    CallKind.GetPodsByLabel ∉ kinds (GetOrCreateShadow fakeCommon fakeUtil fakeClient
        "shadow-t1" (fakeOptions none "" "") baseLabels baseAnnotations baseEnvs
        (emptyWorld [])).trace :=
  ⟨congrArg Out.val (((GetOrCreateShadow_fresh fakeCommon fakeUtil fakeClient "shadow-t1"
      (fakeOptions none "" "") baseLabels baseAnnotations baseEnvs (emptyWorld [])
      (Or.inl rfl)).2 _ _ _ _ _ _ _ rfl rfl rfl rfl).1),
   (GetOrCreateShadow_fresh fakeCommon fakeUtil fakeClient "shadow-t1"
      (fakeOptions none "" "") baseLabels baseAnnotations baseEnvs (emptyWorld [])
      (Or.inl rfl)).1 _ (by decide)⟩

/-- C9: not-found falls through to provisioning.  With sharing enabled, if
`GetPod(name, namespace)` finds no pod (returns an error), discovery makes that one call
and returns no pod, no key material and a nil error (no `GetConfigMap`, no key-file
write, no `GetPodsByLabel`, no `IncreaseRef`), and the value and final world of
`GetOrCreateShadow` are those of `createShadow` on the merged resource meta,
`options.Image` and `envs`, started in the world `GetPod` left. -/
theorem GetOrCreateShadow_not_found (c : Common) (u : Util σ) (k : KubernetesInterface σ)
    (name : String) (options : DaemonOptions) (labels annotations envs : StrMap) (w w1 : σ)
    (co : ConnectOptions) (e : GoError)
    (hco : options.ConnectOptions = some co) (hshare : co.ShareShadow = true)
    (h1 : k.GetPod name options.Namespace w = (.error e, w1)) :
    tryGetExistingShadowRelatedObjs c u k
        (mergedMeta c u name options labels annotations (u.GetLocalUserName w))
        ⟨name, u.PrivateKeyPath name⟩ w =
      ⟨(none, none, none), w1, [Event.GetPod name options.Namespace (.error e)]⟩ ∧
    GetOrCreateShadow c u k name options labels annotations envs w =
      ⟨(createShadow c u k
          ⟨mergedMeta c u name options labels annotations (u.GetLocalUserName w),
            options.Image, envs⟩ ⟨name, u.PrivateKeyPath name⟩ options w1).val,
        (createShadow c u k
          ⟨mergedMeta c u name options labels annotations (u.GetLocalUserName w),
            options.Image, envs⟩ ⟨name, u.PrivateKeyPath name⟩ options w1).world,
        Event.GetPod name options.Namespace (.error e) ::
          (createShadow c u k
            ⟨mergedMeta c u name options labels annotations (u.GetLocalUserName w),
              options.Image, envs⟩ ⟨name, u.PrivateKeyPath name⟩ options w1).trace⟩ := by
  have hs := shareShadow_of_enabled options co hco hshare
  have hd := tryGet_of_getPod_error c u k
    (mergedMeta c u name options labels annotations (u.GetLocalUserName w))
    ⟨name, u.PrivateKeyPath name⟩ w w1 e h1
  refine ⟨hd, ?_⟩
  rw [GetOrCreateShadow_shared c u k name options labels annotations envs w hs _ hd]
  rfl

/-- On an empty cluster with sharing enabled, `shadow-t1` is not found and is
provisioned: the result is that of `createShadow`. -/
theorem GetOrCreateShadow_not_found_witness :
    (GetOrCreateShadow fakeCommon fakeUtil fakeClient "shadow-t1"
        (fakeOptions (some ⟨true⟩) "" "") baseLabels baseAnnotations baseEnvs
        (emptyWorld [])).val =
      ("10.0.0.7", "shadow-t1",
        some ⟨"127.0.0.1", "2222", "root", "root", "/home/dev/.ktctl/pk/shadow-t1_id_rsa"⟩,
        none) :=
  congrArg Out.val (GetOrCreateShadow_not_found fakeCommon fakeUtil fakeClient "shadow-t1"
    (fakeOptions (some ⟨true⟩) "" "") baseLabels baseAnnotations baseEnvs (emptyWorld [])
    (emptyWorld []) ⟨true⟩ (notFound "shadow-t1") rfl rfl rfl).2

/-- C4: the inconsistent state.  If `GetPod(name, namespace)` succeeds and
`GetConfigMap(configMapName, namespace)` fails, `tryGetExistingShadowRelatedObjs` makes
these two calls and no other (no create, no delete, no `IncreaseRef`, no label
enumeration, no write of the key file) and returns a nil pod, nil key material and an
error whose message contains the pod name; `GetOrCreateShadow` with sharing enabled makes
the same two calls and returns that error with empty `podIP` and `podName` and a nil
credential, without provisioning. -/
theorem tryGetExisting_inconsistent (c : Common) (u : Util σ) (k : KubernetesInterface σ) :
    (∀ (rm : ResourceMeta) (skm : SSHkeyMeta) (w w1 w2 : σ) (pod0 : Pod) (e : GoError),
      k.GetPod rm.Name rm.Namespace w = (.ok pod0, w1) →
      k.GetConfigMap skm.SshConfigMapName rm.Namespace w1 = (.error e, w2) →
      tryGetExistingShadowRelatedObjs c u k rm skm w =
        ⟨(none, none, some (inconsistentError rm)), w2,
          [Event.GetPod rm.Name rm.Namespace (.ok pod0),
           Event.GetConfigMap skm.SshConfigMapName rm.Namespace (.error e)]⟩ ∧
      strContains (inconsistentError rm).Error rm.Name) ∧
    (∀ (name : String) (options : DaemonOptions) (labels annotations envs : StrMap)
      (co : ConnectOptions) (w w1 w2 : σ) (pod0 : Pod) (e : GoError),
      options.ConnectOptions = some co → co.ShareShadow = true →
      k.GetPod name options.Namespace w = (.ok pod0, w1) →
      k.GetConfigMap name options.Namespace w1 = (.error e, w2) →
      GetOrCreateShadow c u k name options labels annotations envs w =
        ⟨("", "", none, some (inconsistentError
            (mergedMeta c u name options labels annotations (u.GetLocalUserName w)))), w2,
          [Event.GetPod name options.Namespace (.ok pod0),
           Event.GetConfigMap name options.Namespace (.error e)]⟩ ∧
      strContains (inconsistentError
        (mergedMeta c u name options labels annotations (u.GetLocalUserName w))).Error name) := by
  refine ⟨?_, ?_⟩
  · intro rm skm w w1 w2 pod0 e h1 h2
    exact ⟨tryGet_of_configMap_error c u k rm skm w w1 w2 pod0 e h1 h2,
      inconsistentError_names_pod rm⟩
  · intro name options labels annotations envs co w w1 w2 pod0 e hco hshare h1 h2
    have hs := shareShadow_of_enabled options co hco hshare
    have hd := tryGet_of_configMap_error c u k
      (mergedMeta c u name options labels annotations (u.GetLocalUserName w))
      ⟨name, u.PrivateKeyPath name⟩ w w1 w2 pod0 e h1 h2
    refine ⟨?_, inconsistentError_names_pod _⟩
    rw [GetOrCreateShadow_shared c u k name options labels annotations envs w hs _ hd]
    rfl

/-- A pod `shadow-orphan` without its config map on the example cluster: discovery and
`GetOrCreateShadow` return the error naming the pod, and the cluster and the disk are
as before. -/
theorem tryGetExisting_inconsistent_witness :
    (tryGetExistingShadowRelatedObjs fakeCommon fakeUtil fakeClient
        ⟨"shadow-orphan", "default", baseLabels, baseAnnotations⟩
        ⟨"shadow-orphan", "/pk/shadow-orphan"⟩
        (clusterWorld [runningPod "shadow-orphan" "10.0.0.4"] [] ∅ [])).val =
      (none, none, some
        ⟨"Found shadow pod but no configMap. Please delete the pod shadow-orphan"⟩) ∧
    (GetOrCreateShadow fakeCommon fakeUtil fakeClient "shadow-orphan"
        (fakeOptions (some ⟨true⟩) "" "") baseLabels baseAnnotations baseEnvs
        (clusterWorld [runningPod "shadow-orphan" "10.0.0.4"] [] ∅ [])).val =
      ("", "", none, some
        ⟨"Found shadow pod but no configMap. Please delete the pod shadow-orphan"⟩) :=
  ⟨congrArg Out.val (((tryGetExisting_inconsistent fakeCommon fakeUtil fakeClient).1
      ⟨"shadow-orphan", "default", baseLabels, baseAnnotations⟩
      ⟨"shadow-orphan", "/pk/shadow-orphan"⟩
      (clusterWorld [runningPod "shadow-orphan" "10.0.0.4"] [] ∅ []) _ _ _ _ rfl rfl).1),
   congrArg Out.val (((tryGetExisting_inconsistent fakeCommon fakeUtil fakeClient).2
      "shadow-orphan" (fakeOptions (some ⟨true⟩) "" "") baseLabels baseAnnotations baseEnvs
      ⟨true⟩ (clusterWorld [runningPod "shadow-orphan" "10.0.0.4"] [] ∅ []) _ _ _ _
      rfl rfl rfl rfl).1)⟩

/-- C1: the reuse path of `GetOrCreateShadow`.  With `ConnectOptions.ShareShadow = true`,
if `GetPod(name, namespace)` and `GetConfigMap(name, namespace)` succeed, the key-file
write succeeds, `GetPodsByLabel(merged labels, namespace)` returns exactly one pod `p` and
`IncreaseRef` succeeds, then `GetOrCreateShadow` returns `p.Status.PodIP`, `p.Name`, a
credential with `PrivateKeyPath = PrivateKeyPath(name)` and a nil error; it calls
`IncreaseRef` exactly once and never calls key generation, `CreateConfigMapWithSshKey`,
`CreateShadowPod` or `WaitPodReady`. -/
theorem GetOrCreateShadow_reuse (c : Common) (u : Util σ) (k : KubernetesInterface σ)
    (name : String) (options : DaemonOptions) (labels annotations envs : StrMap)
    (co : ConnectOptions) (w w1 w2 w3 w4 w5 : σ) (pod0 : Pod) (cm : ConfigMap) (pl : PodList)
    (p : Pod)
    (hco : options.ConnectOptions = some co) (hshare : co.ShareShadow = true)
    (h1 : k.GetPod name options.Namespace w = (.ok pod0, w1))
    (h2 : k.GetConfigMap name options.Namespace w1 = (.ok cm, w2))
    (h3 : u.WritePrivateKey (u.PrivateKeyPath name) (cm.Data.index c.SshAuthPrivateKey) w2 =
      (none, w3))
    (h4 : k.GetPodsByLabel (labels.assignAll (u.String2Map options.WithLabels))
      options.Namespace w3 = (.ok pl, w4))
    (hp : pl.Items = [p])
    (h5 : k.IncreaseRef name options.Namespace w4 = (none, w5)) :
    (GetOrCreateShadow c u k name options labels annotations envs w).val =
      (p.Status.PodIP, p.Name,
        some { u.NewDefaultSSHCredential with PrivateKeyPath := u.PrivateKeyPath name },
        none) ∧
    (GetOrCreateShadow c u k name options labels annotations envs w).world = w5 ∧
    (kinds (GetOrCreateShadow c u k name options labels annotations envs w).trace).count
      CallKind.IncreaseRef = 1 ∧
    (∀ kind ∈ [CallKind.Generate, CallKind.CreateConfigMapWithSshKey,
        CallKind.CreateShadowPod, CallKind.WaitPodReady],
      kind ∉ kinds (GetOrCreateShadow c u k name options labels annotations envs w).trace) := by
  have hs := shareShadow_of_enabled options co hco hshare
  obtain ⟨items⟩ := pl
  dsimp only at hp
  subst hp
  have hl : (PodList.mk [p]).Items.length = 1 := rfl
  have hg := getShadowPod_of_one k
    (mergedMeta c u name options labels annotations (u.GetLocalUserName w)) w3 w4 w5 _ h4 hl h5
  have hd := tryGet_of_written c u k
    (mergedMeta c u name options labels annotations (u.GetLocalUserName w))
    ⟨name, u.PrivateKeyPath name⟩ w w1 w2 w3 pod0 cm h1 h2 h3
  rw [hg] at hd
  rw [GetOrCreateShadow_shared c u k name options labels annotations envs w hs _ hd]
  refine ⟨rfl, rfl, rfl, ?_⟩
  · intro kind hk
    revert hk
    cases kind <;> simp [kinds, Event.kind]

/-- Scenario B on the example cluster: `shadow-shared` with one matching pod and its
config map is reused; the reference counter goes from 0 to 1 and no object is created. -/
theorem GetOrCreateShadow_reuse_witness :
    (GetOrCreateShadow fakeCommon fakeUtil fakeClient "shadow-shared"
        (fakeOptions (some ⟨true⟩) "" "") baseLabels baseAnnotations baseEnvs
        (clusterWorld [runningPod "shadow-shared" "10.0.0.5"] [storedConfigMap "shadow-shared"]
          ∅ [])).val =
      ("10.0.0.5", "shadow-shared",
        some ⟨"127.0.0.1", "2222", "root", "root",
          "/home/dev/.ktctl/pk/shadow-shared_id_rsa"⟩, none) ∧
    (GetOrCreateShadow fakeCommon fakeUtil fakeClient "shadow-shared"
        (fakeOptions (some ⟨true⟩) "" "") baseLabels baseAnnotations baseEnvs
        (clusterWorld [runningPod "shadow-shared" "10.0.0.5"] [storedConfigMap "shadow-shared"]
          ∅ [])).world.refs = 1 :=
  ⟨(GetOrCreateShadow_reuse fakeCommon fakeUtil fakeClient "shadow-shared"
      (fakeOptions (some ⟨true⟩) "" "") baseLabels baseAnnotations baseEnvs ⟨true⟩
      (clusterWorld [runningPod "shadow-shared" "10.0.0.5"] [storedConfigMap "shadow-shared"]
        ∅ []) _ _ _ _ _ _ _ _ (runningPod "shadow-shared" "10.0.0.5")
      rfl rfl rfl rfl rfl rfl rfl rfl).1,
   congrArg FakeWorld.refs (GetOrCreateShadow_reuse fakeCommon fakeUtil fakeClient
      "shadow-shared" (fakeOptions (some ⟨true⟩) "" "") baseLabels baseAnnotations baseEnvs
      ⟨true⟩
      (clusterWorld [runningPod "shadow-shared" "10.0.0.5"] [storedConfigMap "shadow-shared"]
        ∅ []) _ _ _ _ _ _ _ _ (runningPod "shadow-shared" "10.0.0.5")
      rfl rfl rfl rfl rfl rfl rfl rfl).2.1⟩

/-- C3, as amended: duplicate detection.  `getShadowPod`, when `GetPodsByLabel` returns
two or more pods, makes that one call and returns a nil pod and the duplicate error.  If
`GetPod` and `GetConfigMap` succeed, the key-file write succeeds and
`GetPodsByLabel` returns two or more pods, `tryGetExistingShadowRelatedObjs` makes these
four calls and no other (no `IncreaseRef`) and returns a nil pod and the duplicate error,
whose message contains the resource name and the name of the namespace; and
`GetOrCreateShadow` with sharing enabled makes the same four calls (no `IncreaseRef`, no
key generation, no `CreateConfigMapWithSshKey`, `CreateShadowPod` or `WaitPodReady`) and
returns that error with empty `podIP` and `podName` and a nil credential. -/
theorem duplicate_detection (c : Common) (u : Util σ) (k : KubernetesInterface σ) :
    (∀ (rm : ResourceMeta) (w w1 : σ) (pl : PodList),
      k.GetPodsByLabel rm.Labels rm.Namespace w = (.ok pl, w1) → 2 ≤ pl.Items.length →
      getShadowPod k rm w =
        ⟨(none, some (duplicateError rm)), w1,
          [Event.GetPodsByLabel rm.Labels rm.Namespace (.ok pl)]⟩) ∧
    (∀ (rm : ResourceMeta) (skm : SSHkeyMeta) (w w1 w2 w3 w4 : σ) (pod0 : Pod)
      (cm : ConfigMap) (pl : PodList),
      k.GetPod rm.Name rm.Namespace w = (.ok pod0, w1) →
      k.GetConfigMap skm.SshConfigMapName rm.Namespace w1 = (.ok cm, w2) →
      u.WritePrivateKey skm.PrivateKeyPath (cm.Data.index c.SshAuthPrivateKey) w2 =
        (none, w3) →
      k.GetPodsByLabel rm.Labels rm.Namespace w3 = (.ok pl, w4) →
      2 ≤ pl.Items.length →
      tryGetExistingShadowRelatedObjs c u k rm skm w =
        ⟨(none, some (storedGenerator c cm skm), some (duplicateError rm)), w4,
          [Event.GetPod rm.Name rm.Namespace (.ok pod0),
           Event.GetConfigMap skm.SshConfigMapName rm.Namespace (.ok cm),
           Event.WritePrivateKey skm.PrivateKeyPath (cm.Data.index c.SshAuthPrivateKey) none,
           Event.GetPodsByLabel rm.Labels rm.Namespace (.ok pl)]⟩ ∧
      strContains (duplicateError rm).Error rm.Name ∧
      strContains (duplicateError rm).Error rm.Namespace) ∧
    (∀ (name : String) (options : DaemonOptions) (labels annotations envs : StrMap)
      (co : ConnectOptions) (w w1 w2 w3 w4 : σ) (pod0 : Pod) (cm : ConfigMap) (pl : PodList),
      options.ConnectOptions = some co → co.ShareShadow = true →
      k.GetPod name options.Namespace w = (.ok pod0, w1) →
      k.GetConfigMap name options.Namespace w1 = (.ok cm, w2) →
      u.WritePrivateKey (u.PrivateKeyPath name) (cm.Data.index c.SshAuthPrivateKey) w2 =
        (none, w3) →
      k.GetPodsByLabel (labels.assignAll (u.String2Map options.WithLabels))
        options.Namespace w3 = (.ok pl, w4) →
      2 ≤ pl.Items.length →
      GetOrCreateShadow c u k name options labels annotations envs w =
        ⟨("", "", none, some (duplicateError
            (mergedMeta c u name options labels annotations (u.GetLocalUserName w)))), w4,
          [Event.GetPod name options.Namespace (.ok pod0),
           Event.GetConfigMap name options.Namespace (.ok cm),
           Event.WritePrivateKey (u.PrivateKeyPath name) (cm.Data.index c.SshAuthPrivateKey)
            none,
           Event.GetPodsByLabel (labels.assignAll (u.String2Map options.WithLabels))
            options.Namespace (.ok pl)]⟩ ∧
      strContains (duplicateError
        (mergedMeta c u name options labels annotations (u.GetLocalUserName w))).Error name ∧
      strContains (duplicateError
        (mergedMeta c u name options labels annotations (u.GetLocalUserName w))).Error
        options.Namespace ∧
      (∀ kind ∈ [CallKind.IncreaseRef, CallKind.Generate, CallKind.CreateConfigMapWithSshKey,
          CallKind.CreateShadowPod, CallKind.WaitPodReady],
        kind ∉ kinds (GetOrCreateShadow c u k name options labels annotations envs w).trace)) := by
  refine ⟨?_, ?_, ?_⟩
  · intro rm w w1 pl h1 hl
    exact getShadowPod_of_many k rm w w1 pl h1 hl
  · intro rm skm w w1 w2 w3 w4 pod0 cm pl h1 h2 h3 h4 hl
    have hd := tryGet_of_written c u k rm skm w w1 w2 w3 pod0 cm h1 h2 h3
    rw [getShadowPod_of_many k rm w3 w4 pl h4 hl] at hd
    exact ⟨hd, duplicateError_names_resource rm, duplicateError_names_namespace rm⟩
  · intro name options labels annotations envs co w w1 w2 w3 w4 pod0 cm pl hco hshare
      h1 h2 h3 h4 hl
    have hs := shareShadow_of_enabled options co hco hshare
    have hd := tryGet_of_written c u k
      (mergedMeta c u name options labels annotations (u.GetLocalUserName w))
      ⟨name, u.PrivateKeyPath name⟩ w w1 w2 w3 pod0 cm h1 h2 h3
    rw [getShadowPod_of_many k
      (mergedMeta c u name options labels annotations (u.GetLocalUserName w)) w3 w4 pl h4 hl]
      at hd
    have hg : GetOrCreateShadow c u k name options labels annotations envs w =
        ⟨("", "", none, some (duplicateError
            (mergedMeta c u name options labels annotations (u.GetLocalUserName w)))), w4,
          [Event.GetPod name options.Namespace (.ok pod0),
           Event.GetConfigMap name options.Namespace (.ok cm),
           Event.WritePrivateKey (u.PrivateKeyPath name) (cm.Data.index c.SshAuthPrivateKey)
            none,
           Event.GetPodsByLabel (labels.assignAll (u.String2Map options.WithLabels))
            options.Namespace (.ok pl)]⟩ := by
      rw [GetOrCreateShadow_shared c u k name options labels annotations envs w hs _ hd]
      rfl
    refine ⟨hg, duplicateError_names_resource _, duplicateError_names_namespace _, ?_⟩
    rw [hg]
    intro kind hk
    revert hk
    cases kind <;> simp [kinds, Event.kind]

/-- Scenario C on the example cluster: two pods carry the labels of `shadow-dup`; the
run returns the duplicate error naming `shadow-dup` and `default`, and the cluster still
holds the two pods and the one config map. -/
theorem duplicate_detection_witness :
    (getShadowPod fakeClient ⟨"shadow-dup", "default", baseLabels, baseAnnotations⟩
        (clusterWorld [runningPod "shadow-dup" "10.0.0.8", runningPod "shadow-dup-b" "10.0.0.9"]
          [storedConfigMap "shadow-dup"] ∅ [])).val =
      (none, some ⟨"Found more than one pod with name shadow-dup, " ++
        "please make sure these is only one in namespace default"⟩) ∧
    (tryGetExistingShadowRelatedObjs fakeCommon fakeUtil fakeClient
        ⟨"shadow-dup", "default", baseLabels, baseAnnotations⟩
        ⟨"shadow-dup", "/pk/shadow-dup"⟩
        (clusterWorld [runningPod "shadow-dup" "10.0.0.8", runningPod "shadow-dup-b" "10.0.0.9"]
          [storedConfigMap "shadow-dup"] ∅ [])).val.2.2 =
      some ⟨"Found more than one pod with name shadow-dup, " ++
        "please make sure these is only one in namespace default"⟩ ∧
    (GetOrCreateShadow fakeCommon fakeUtil fakeClient "shadow-dup"
        (fakeOptions (some ⟨true⟩) "" "") baseLabels baseAnnotations baseEnvs
        (clusterWorld [runningPod "shadow-dup" "10.0.0.8", runningPod "shadow-dup-b" "10.0.0.9"]
          [storedConfigMap "shadow-dup"] ∅ [])).val =
      ("", "", none, some ⟨"Found more than one pod with name shadow-dup, " ++
        "please make sure these is only one in namespace default"⟩) ∧
    (GetOrCreateShadow fakeCommon fakeUtil fakeClient "shadow-dup"
        (fakeOptions (some ⟨true⟩) "" "") baseLabels baseAnnotations baseEnvs
        (clusterWorld [runningPod "shadow-dup" "10.0.0.8", runningPod "shadow-dup-b" "10.0.0.9"]
          [storedConfigMap "shadow-dup"] ∅ [])).world.pods.map Pod.Name =
      ["shadow-dup", "shadow-dup-b"] :=
  ⟨congrArg Out.val ((duplicate_detection fakeCommon fakeUtil fakeClient).1
      ⟨"shadow-dup", "default", baseLabels, baseAnnotations⟩
      (clusterWorld [runningPod "shadow-dup" "10.0.0.8", runningPod "shadow-dup-b" "10.0.0.9"]
        [storedConfigMap "shadow-dup"] ∅ []) _ _ rfl (by decide)),
   congrArg (fun o => o.val.2.2) ((duplicate_detection fakeCommon fakeUtil fakeClient).2.1
      ⟨"shadow-dup", "default", baseLabels, baseAnnotations⟩
      ⟨"shadow-dup", "/pk/shadow-dup"⟩
      (clusterWorld [runningPod "shadow-dup" "10.0.0.8", runningPod "shadow-dup-b" "10.0.0.9"]
        [storedConfigMap "shadow-dup"] ∅ []) _ _ _ _ _ _ _
      rfl rfl rfl rfl (by decide)).1,
   congrArg Out.val ((duplicate_detection fakeCommon fakeUtil fakeClient).2.2
      "shadow-dup" (fakeOptions (some ⟨true⟩) "" "") baseLabels baseAnnotations baseEnvs ⟨true⟩
      (clusterWorld [runningPod "shadow-dup" "10.0.0.8", runningPod "shadow-dup-b" "10.0.0.9"]
        [storedConfigMap "shadow-dup"] ∅ []) _ _ _ _ _ _ _
      rfl rfl rfl rfl rfl rfl (by decide)).1,
   congrArg (fun o => o.world.pods.map Pod.Name)
    ((duplicate_detection fakeCommon fakeUtil fakeClient).2.2
      "shadow-dup" (fakeOptions (some ⟨true⟩) "" "") baseLabels baseAnnotations baseEnvs ⟨true⟩
      (clusterWorld [runningPod "shadow-dup" "10.0.0.8", runningPod "shadow-dup-b" "10.0.0.9"]
        [storedConfigMap "shadow-dup"] ∅ []) _ _ _ _ _ _ _
      rfl rfl rfl rfl rfl rfl (by decide)).1⟩

/-- C3, the claim as stated fails: on the example cluster `GetPod` and `GetConfigMap`
succeed and `GetPodsByLabel` returns the two pods carrying the labels of `shadow-dup`,
but the write of the key file fails.  Discovery and `GetOrCreateShadow` then return the
error of the write, whose message contains neither `shadow-dup` nor `default`, and the
enumeration is not among the calls of the run. -/
theorem duplicate_masked_by_write_error :
    (fakeClient.GetPod "shadow-dup" "default"
        (clusterWorld [runningPod "shadow-dup" "10.0.0.8", runningPod "shadow-dup-b" "10.0.0.9"]
          [storedConfigMap "shadow-dup"] ∅ [CallKind.WritePrivateKey])).1 =
      .ok (runningPod "shadow-dup" "10.0.0.8") ∧
    (fakeClient.GetConfigMap "shadow-dup" "default"
        (clusterWorld [runningPod "shadow-dup" "10.0.0.8", runningPod "shadow-dup-b" "10.0.0.9"]
          [storedConfigMap "shadow-dup"] ∅ [CallKind.WritePrivateKey])).1 =
      .ok (storedConfigMap "shadow-dup") ∧
    (fakeClient.GetPodsByLabel baseLabels "default"
        (clusterWorld [runningPod "shadow-dup" "10.0.0.8", runningPod "shadow-dup-b" "10.0.0.9"]
          [storedConfigMap "shadow-dup"] ∅ [CallKind.WritePrivateKey])).1 =
      .ok ⟨[runningPod "shadow-dup" "10.0.0.8", runningPod "shadow-dup-b" "10.0.0.9"]⟩ ∧
    (tryGetExistingShadowRelatedObjs fakeCommon fakeUtil fakeClient
        ⟨"shadow-dup", "default", baseLabels, baseAnnotations⟩
        ⟨"shadow-dup", "/home/dev/.ktctl/pk/shadow-dup_id_rsa"⟩
        (clusterWorld [runningPod "shadow-dup" "10.0.0.8", runningPod "shadow-dup-b" "10.0.0.9"]
          [storedConfigMap "shadow-dup"] ∅ [CallKind.WritePrivateKey])).val.2.2 =
      some (failure "WritePrivateKey") ∧
    (GetOrCreateShadow fakeCommon fakeUtil fakeClient "shadow-dup"
        (fakeOptions (some ⟨true⟩) "" "") baseLabels baseAnnotations baseEnvs
        (clusterWorld [runningPod "shadow-dup" "10.0.0.8", runningPod "shadow-dup-b" "10.0.0.9"]
          [storedConfigMap "shadow-dup"] ∅ [CallKind.WritePrivateKey])).val =
      ("", "", none, some (failure "WritePrivateKey")) ∧
    kinds (GetOrCreateShadow fakeCommon fakeUtil fakeClient "shadow-dup"
        (fakeOptions (some ⟨true⟩) "" "") baseLabels baseAnnotations baseEnvs
        (clusterWorld [runningPod "shadow-dup" "10.0.0.8", runningPod "shadow-dup-b" "10.0.0.9"]
          [storedConfigMap "shadow-dup"] ∅ [CallKind.WritePrivateKey])).trace =
      [CallKind.GetPod, CallKind.GetConfigMap, CallKind.WritePrivateKey] ∧
    ¬ strContains (failure "WritePrivateKey").Error "shadow-dup" ∧
    ¬ strContains (failure "WritePrivateKey").Error "default" :=
  ⟨rfl, rfl, rfl, rfl, rfl, rfl, by unfold strContains; decide, by unfold strContains; decide⟩

/-- C5, as amended: zero matches.  `getShadowPod`, when `GetPodsByLabel` returns zero
pods, makes that one call and returns a nil pod and a nil error.  In a run of
`tryGetExistingShadowRelatedObjs` whose `GetPodsByLabel` call returns zero pods the result
is a nil pod and a nil error, and the calls are exactly `GetPod`, `GetConfigMap`, the
successful write of the config map's stored private key to the local private-key file,
and the enumeration: no `IncreaseRef`, no creation or deletion of a cluster object, but
the key file has been written. -/
theorem zero_matches_effects (c : Common) (u : Util σ) (k : KubernetesInterface σ) :
    (∀ (rm : ResourceMeta) (w w1 : σ) (pl : PodList),
      k.GetPodsByLabel rm.Labels rm.Namespace w = (.ok pl, w1) → pl.Items = [] →
      getShadowPod k rm w =
        ⟨(none, none), w1, [Event.GetPodsByLabel rm.Labels rm.Namespace (.ok pl)]⟩) ∧
    (∀ (rm : ResourceMeta) (skm : SSHkeyMeta) (w : σ) (lbl : StrMap) (ns : String)
      (pl : PodList),
      Event.GetPodsByLabel lbl ns (.ok pl) ∈
        (tryGetExistingShadowRelatedObjs c u k rm skm w).trace →
      pl.Items = [] →
      (tryGetExistingShadowRelatedObjs c u k rm skm w).val.1 = none ∧
      (tryGetExistingShadowRelatedObjs c u k rm skm w).val.2.2 = none ∧
      (∃ pod0 cm,
        (tryGetExistingShadowRelatedObjs c u k rm skm w).val.2.1 =
          some (storedGenerator c cm skm) ∧
        (tryGetExistingShadowRelatedObjs c u k rm skm w).trace =
          [Event.GetPod rm.Name rm.Namespace (.ok pod0),
           Event.GetConfigMap skm.SshConfigMapName rm.Namespace (.ok cm),
           Event.WritePrivateKey skm.PrivateKeyPath (cm.Data.index c.SshAuthPrivateKey) none,
           Event.GetPodsByLabel rm.Labels rm.Namespace (.ok pl)]) ∧
      (∀ kind ∈ [CallKind.IncreaseRef, CallKind.Generate, CallKind.CreateConfigMapWithSshKey,
          CallKind.CreateShadowPod, CallKind.WaitPodReady],
        kind ∉ kinds (tryGetExistingShadowRelatedObjs c u k rm skm w).trace)) := by
  refine ⟨?_, ?_⟩
  · intro rm w w1 pl h1 hl
    exact getShadowPod_of_zero k rm w w1 pl h1 (by rw [hl]; rfl)
  · intro rm skm w lbl ns pl hmem hl
    rcases tryGet_cases c u k rm skm w with
      ⟨e, w1, hd⟩ | ⟨pod0, e, w2, hd⟩ | ⟨pod0, cm, e, w3, hd⟩ | ⟨pod0, cm, w3, hd⟩
    · rw [hd] at hmem; simp at hmem
    · rw [hd] at hmem; simp at hmem
    · rw [hd] at hmem; simp at hmem
    · rcases getShadowPod_cases k rm w3 with
        ⟨e, w4, hg⟩ | ⟨p, e, w5, hg⟩ | ⟨p, w5, hg⟩ | ⟨pl2, w4, hl2, hg⟩ | ⟨w4, hg⟩
      · rw [hd, hg] at hmem; simp at hmem
      · rw [hd, hg] at hmem; simp at hmem
        obtain ⟨-, -, rfl⟩ := hmem
        simp at hl
      · rw [hd, hg] at hmem; simp at hmem
        obtain ⟨-, -, rfl⟩ := hmem
        simp at hl
      · rw [hd, hg] at hmem; simp at hmem
        obtain ⟨-, -, rfl⟩ := hmem
        rw [hl] at hl2
        simp at hl2
      · rw [hd, hg] at hmem
        simp at hmem
        obtain ⟨-, -, rfl⟩ := hmem
        rw [hd, hg]
        refine ⟨rfl, rfl, ⟨pod0, cm, rfl, rfl⟩, ?_⟩
        intro kind hk
        revert hk
        cases kind <;> simp [kinds, Event.kind]

/-- A run with zero matches on the example cluster: a pod named `shadow-x` exists without
the labels of the shadow; discovery returns no pod and no error. -/
theorem zero_matches_effects_witness :
    (tryGetExistingShadowRelatedObjs fakeCommon fakeUtil fakeClient
        ⟨"shadow-x", "default", baseLabels, baseAnnotations⟩
        ⟨"shadow-x", "/home/dev/.ktctl/pk/shadow-x_id_rsa"⟩
        (clusterWorld [strayPod "shadow-x" "10.0.0.6"] [storedConfigMap "shadow-x"]
          (staleDisk "shadow-x") [])).val.1 = none ∧
    (tryGetExistingShadowRelatedObjs fakeCommon fakeUtil fakeClient
        ⟨"shadow-x", "default", baseLabels, baseAnnotations⟩
        ⟨"shadow-x", "/home/dev/.ktctl/pk/shadow-x_id_rsa"⟩
        (clusterWorld [strayPod "shadow-x" "10.0.0.6"] [storedConfigMap "shadow-x"]
          (staleDisk "shadow-x") [])).val.2.2 = none :=
  ⟨((zero_matches_effects fakeCommon fakeUtil fakeClient).2
      ⟨"shadow-x", "default", baseLabels, baseAnnotations⟩
      ⟨"shadow-x", "/home/dev/.ktctl/pk/shadow-x_id_rsa"⟩
      (clusterWorld [strayPod "shadow-x" "10.0.0.6"] [storedConfigMap "shadow-x"]
        (staleDisk "shadow-x") [])
      baseLabels "default" ⟨[]⟩
      (List.Mem.tail _ (List.Mem.tail _ (List.Mem.tail _ (List.Mem.head _)))) rfl).1,
   ((zero_matches_effects fakeCommon fakeUtil fakeClient).2
      ⟨"shadow-x", "default", baseLabels, baseAnnotations⟩
      ⟨"shadow-x", "/home/dev/.ktctl/pk/shadow-x_id_rsa"⟩
      (clusterWorld [strayPod "shadow-x" "10.0.0.6"] [storedConfigMap "shadow-x"]
        (staleDisk "shadow-x") [])
      baseLabels "default" ⟨[]⟩
      (List.Mem.tail _ (List.Mem.tail _ (List.Mem.tail _ (List.Mem.head _)))) rfl).2.1⟩

/-- C5, the claim as stated fails: on the example cluster discovery's label enumeration
returns zero pods and discovery returns a nil pod and a nil error, yet the local file
of the private key, which held `old-private-key`, holds `stored-private-key` afterwards:
the key-file write is among the calls of the run. -/
theorem zero_matches_overwrites_key_file :
    Event.GetPodsByLabel baseLabels "default" (.ok ⟨[]⟩) ∈
      (tryGetExistingShadowRelatedObjs fakeCommon fakeUtil fakeClient
        ⟨"shadow-x", "default", baseLabels, baseAnnotations⟩
        ⟨"shadow-x", "/home/dev/.ktctl/pk/shadow-x_id_rsa"⟩
        (clusterWorld [strayPod "shadow-x" "10.0.0.6"] [storedConfigMap "shadow-x"]
          (staleDisk "shadow-x") [])).trace ∧
    (tryGetExistingShadowRelatedObjs fakeCommon fakeUtil fakeClient
        ⟨"shadow-x", "default", baseLabels, baseAnnotations⟩
        ⟨"shadow-x", "/home/dev/.ktctl/pk/shadow-x_id_rsa"⟩
        (clusterWorld [strayPod "shadow-x" "10.0.0.6"] [storedConfigMap "shadow-x"]
          (staleDisk "shadow-x") [])).val.1 = none ∧
    (tryGetExistingShadowRelatedObjs fakeCommon fakeUtil fakeClient
        ⟨"shadow-x", "default", baseLabels, baseAnnotations⟩
        ⟨"shadow-x", "/home/dev/.ktctl/pk/shadow-x_id_rsa"⟩
        (clusterWorld [strayPod "shadow-x" "10.0.0.6"] [storedConfigMap "shadow-x"]
          (staleDisk "shadow-x") [])).val.2.2 = none ∧
    (clusterWorld [strayPod "shadow-x" "10.0.0.6"] [storedConfigMap "shadow-x"]
        (staleDisk "shadow-x") []).files.lookup "/home/dev/.ktctl/pk/shadow-x_id_rsa" =
      some "old-private-key" ∧
    (tryGetExistingShadowRelatedObjs fakeCommon fakeUtil fakeClient
        ⟨"shadow-x", "default", baseLabels, baseAnnotations⟩
        ⟨"shadow-x", "/home/dev/.ktctl/pk/shadow-x_id_rsa"⟩
        (clusterWorld [strayPod "shadow-x" "10.0.0.6"] [storedConfigMap "shadow-x"]
          (staleDisk "shadow-x") [])).world.files.lookup
        "/home/dev/.ktctl/pk/shadow-x_id_rsa" = some "stored-private-key" ∧
    CallKind.WritePrivateKey ∈ kinds
      (tryGetExistingShadowRelatedObjs fakeCommon fakeUtil fakeClient
        ⟨"shadow-x", "default", baseLabels, baseAnnotations⟩
        ⟨"shadow-x", "/home/dev/.ktctl/pk/shadow-x_id_rsa"⟩
        (clusterWorld [strayPod "shadow-x" "10.0.0.6"] [storedConfigMap "shadow-x"]
          (staleDisk "shadow-x") [])).trace :=
  ⟨List.Mem.tail _ (List.Mem.tail _ (List.Mem.tail _ (List.Mem.head _))), rfl, rfl,
    by decide, by decide, by decide⟩

/-- C6, as amended: the merge of overrides.  For every label map and annotation map
that a run of `GetOrCreateShadow` hands to the platform client, with
`OL = String2Map(options.WithLabels)` and `OA = String2Map(options.WithAnnotations)`:
the label map carries `OL[k]` for every key `k` of `OL` and the base value for every
other key, except that the map handed to `CreateShadowPod` carries `name` under
`common.KtName`; the annotation map carries `OA[k]` for every key `k` of `OA` other than
`common.KtUser`, the base value for every other key but `common.KtUser`, and the local
user name under `common.KtUser`. -/
theorem override_merge (c : Common) (u : Util σ) (k : KubernetesInterface σ)
    (name : String) (options : DaemonOptions) (labels annotations envs : StrMap) (w : σ) :
    ∀ ev ∈ (GetOrCreateShadow c u k name options labels annotations envs w).trace,
      (∀ m, ev.labels? = some m →
        (∀ key, (ev.kind = CallKind.CreateShadowPod → key ≠ c.KtName) →
          (∀ v, (u.String2Map options.WithLabels).lookup key = some v →
            m.lookup key = some v) ∧
          ((u.String2Map options.WithLabels).lookup key = none →
            m.lookup key = labels.lookup key)) ∧
        (ev.kind = CallKind.CreateShadowPod → m.lookup c.KtName = some name)) ∧
      (∀ a, ev.annotations? = some a →
        (∀ key, key ≠ c.KtUser →
          (∀ v, (u.String2Map options.WithAnnotations).lookup key = some v →
            a.lookup key = some v) ∧
          ((u.String2Map options.WithAnnotations).lookup key = none →
            a.lookup key = annotations.lookup key)) ∧
        a.lookup c.KtUser = some (u.GetLocalUserName w)) := by
  intro ev hev
  have hmaps := GetOrCreateShadow_event_maps c u k name options labels annotations envs w ev hev
  refine ⟨?_, ?_⟩
  · intro m hm
    rcases hmaps.1 m hm with ⟨hkind, rfl⟩ | ⟨hkind, rfl⟩
    · refine ⟨?_, fun _ => AList.lookup_insert _⟩
      intro key hkey
      have hne : key ≠ c.KtName := hkey hkind
      rw [AList.lookup_insert_ne hne]
      exact ⟨fun v hv => StrMap.lookup_assignAll_of_some _ _ key v hv,
        fun hn => StrMap.lookup_assignAll_of_none _ _ key hn⟩
    · refine ⟨?_, fun h => absurd h hkind⟩
      intro key _
      exact ⟨fun v hv => StrMap.lookup_assignAll_of_some _ _ key v hv,
        fun hn => StrMap.lookup_assignAll_of_none _ _ key hn⟩
  · intro a ha
    rw [hmaps.2 a ha]
    refine ⟨?_, AList.lookup_insert _⟩
    intro key hne
    rw [AList.lookup_insert_ne hne]
    exact ⟨fun v hv => StrMap.lookup_assignAll_of_some _ _ key v hv,
      fun hn => StrMap.lookup_assignAll_of_none _ _ key hn⟩

/-- On the example cluster, with the overrides `kt-component=mesh,team=blue` and
`kt-config=method=socks`, the pod specification handed to `CreateShadowPod` carries the
overriding values, and the base value of a label that is not overridden. -/
theorem override_merge_witness :
    ∃ ev ∈ (GetOrCreateShadow fakeCommon fakeUtil fakeClient "shadow-t1"
        (fakeOptions none "kt-component=mesh,team=blue" "kt-config=method=socks")
        baseLabels baseAnnotations baseEnvs (emptyWorld [])).trace,
      ev.kind = CallKind.CreateShadowPod ∧
      ∃ m a, ev.labels? = some m ∧ ev.annotations? = some a ∧
        m.lookup "kt-component" = some "mesh" ∧
        m.lookup "control-by" = baseLabels.lookup "control-by" ∧
        a.lookup "kt-config" = some "method=socks" :=
  ⟨_, List.Mem.tail _ (List.Mem.tail _ (List.Mem.head _)), rfl, _, _, rfl, rfl,
    (((override_merge fakeCommon fakeUtil fakeClient "shadow-t1"
      (fakeOptions none "kt-component=mesh,team=blue" "kt-config=method=socks")
      baseLabels baseAnnotations baseEnvs (emptyWorld []) _
      (List.Mem.tail _ (List.Mem.tail _ (List.Mem.head _)))).1 _ rfl).1 "kt-component"
        (fun _ => by decide)).1 "mesh" (by decide),
    (((override_merge fakeCommon fakeUtil fakeClient "shadow-t1"
      (fakeOptions none "kt-component=mesh,team=blue" "kt-config=method=socks")
      baseLabels baseAnnotations baseEnvs (emptyWorld []) _
      (List.Mem.tail _ (List.Mem.tail _ (List.Mem.head _)))).1 _ rfl).1 "control-by"
        (fun _ => by decide)).2 (by decide),
    (((override_merge fakeCommon fakeUtil fakeClient "shadow-t1"
      (fakeOptions none "kt-component=mesh,team=blue" "kt-config=method=socks")
      baseLabels baseAnnotations baseEnvs (emptyWorld []) _
      (List.Mem.tail _ (List.Mem.tail _ (List.Mem.head _)))).2 _ rfl).1 "kt-config"
        (by decide)).1 "method=socks" (by decide)⟩

/-- C6, the claim as stated fails: with the overrides `kt-name=mine` for labels and
`kt-user=alice` for annotations, local user `dev`, both keys are keys of the override
maps, yet the pod specification handed to `CreateShadowPod` carries `shadow-t1` under
`kt-name` and `dev` under `kt-user`. -/
theorem override_loses_to_stamps :
    (fakeString2Map "kt-name=mine").lookup "kt-name" = some "mine" ∧
    (fakeString2Map "kt-user=alice").lookup "kt-user" = some "alice" ∧
    ∃ ms, Event.CreateShadowPod ms "shadow-t1"
        (fakeOptions none "kt-name=mine" "kt-user=alice") none ∈
      (GetOrCreateShadow fakeCommon fakeUtil fakeClient "shadow-t1"
        (fakeOptions none "kt-name=mine" "kt-user=alice") baseLabels baseAnnotations
        baseEnvs (emptyWorld [])).trace ∧
      ms.Meta.Labels.lookup "kt-name" = some "shadow-t1" ∧
      ms.Meta.Annotations.lookup "kt-user" = some "dev" :=
  ⟨by decide, by decide, _, List.Mem.tail _ (List.Mem.tail _ (List.Mem.head _)),
    by decide, by decide⟩

/-- C7, as amended: which platform errors propagate.  In every run of
`GetOrCreateShadow`, an error returned by a call to `GetPodsByLabel`, `IncreaseRef`,
`CreateConfigMapWithSshKey`, `CreateShadowPod` or `WaitPodReady` is exactly the error
`GetOrCreateShadow` returns; an error returned by `GetConfigMap` is replaced by the
error naming the pod without config map; an error returned by `GetPod` is not returned:
the run continues with `createShadow` and its result is the result of the run. -/
theorem platform_errors (c : Common) (u : Util σ) (k : KubernetesInterface σ)
    (name : String) (options : DaemonOptions) (labels annotations envs : StrMap) (w : σ) :
    ∀ ev ∈ (GetOrCreateShadow c u k name options labels annotations envs w).trace,
      ∀ e, ev.error? = some e →
        (ev.kind ∈ [CallKind.GetPodsByLabel, CallKind.IncreaseRef,
            CallKind.CreateConfigMapWithSshKey, CallKind.CreateShadowPod,
            CallKind.WaitPodReady] →
          (GetOrCreateShadow c u k name options labels annotations envs w).val.2.2.2 =
            some e) ∧
        (ev.kind = CallKind.GetConfigMap →
          (GetOrCreateShadow c u k name options labels annotations envs w).val.2.2.2 =
            some (inconsistentError
              (mergedMeta c u name options labels annotations (u.GetLocalUserName w)))) ∧
        (ev.kind = CallKind.GetPod →
          ∃ w1, (GetOrCreateShadow c u k name options labels annotations envs w).val =
            (createShadow c u k
              ⟨mergedMeta c u name options labels annotations (u.GetLocalUserName w),
                options.Image, envs⟩ ⟨name, u.PrivateKeyPath name⟩ options w1).val) := by
  have hprop := fun w1 => createShadow_propagates c u k
    ⟨mergedMeta c u name options labels annotations (u.GetLocalUserName w), options.Image, envs⟩
    ⟨name, u.PrivateKeyPath name⟩ options w1
  have hno := fun w1 => createShadow_no_lookup c u k
    ⟨mergedMeta c u name options labels annotations (u.GetLocalUserName w), options.Image, envs⟩
    ⟨name, u.PrivateKeyPath name⟩ options w1
  rcases GetOrCreateShadow_cases c u k name options labels annotations envs w _ _ _
    rfl rfl rfl with ⟨-, hd⟩ | ⟨-, hc⟩
  · rw [hd]
    intro ev hev e he
    exact ⟨fun _ => hprop w ev hev e he, fun h => absurd h (hno w ev hev).2,
      fun h => absurd h (hno w ev hev).1⟩
  rcases hc with ⟨e0, w1, hd⟩ | ⟨pod0, e0, w2, hd⟩ | ⟨pod0, cm, e0, w3, hd⟩ |
    ⟨pod0, cm, e0, w4, hd⟩ | ⟨pod0, cm, p, e0, w5, hd⟩ | ⟨pod0, cm, p, w5, hd⟩ |
    ⟨pod0, cm, pl2, w4, hl2, hd⟩ | ⟨pod0, cm, w4, hd⟩
  · rw [hd]
    intro ev hev e he
    rcases List.mem_cons.mp hev with rfl | hev
    · exact ⟨fun h => by simp [Event.kind] at h, fun h => by simp [Event.kind] at h,
        fun _ => ⟨w1, rfl⟩⟩
    · exact ⟨fun _ => hprop w1 ev hev e he, fun h => absurd h (hno w1 ev hev).2,
        fun h => absurd h (hno w1 ev hev).1⟩
  · rw [hd]; simp [Event.error?, Event.kind]
  · rw [hd]; simp [Event.error?, Event.kind]
  · rw [hd]; simp [Event.error?, Event.kind]
  · rw [hd]; simp [Event.error?, Event.kind]
  · rw [hd]; simp [Event.error?, Event.kind]
  · rw [hd]; simp [Event.error?, Event.kind]
  · rw [hd]
    intro ev hev e he
    simp only [List.mem_cons] at hev
    rcases hev with rfl | rfl | rfl | rfl | hev
    · simp [Event.error?] at he
    · simp [Event.error?] at he
    · simp [Event.error?] at he
    · simp [Event.error?] at he
    · exact ⟨fun _ => hprop w4 ev hev e he, fun h => absurd h (hno w4 ev hev).2,
        fun h => absurd h (hno w4 ev hev).1⟩

/-- On the example cluster, a failing `WaitPodReady` and a failing `IncreaseRef`: each
error is the error of the run. -/
theorem platform_errors_witness :
    (GetOrCreateShadow fakeCommon fakeUtil fakeClient "shadow-t1" (fakeOptions none "" "")
        baseLabels baseAnnotations baseEnvs (emptyWorld [CallKind.WaitPodReady])).val.2.2.2 =
      some (failure "WaitPodReady") ∧
    (GetOrCreateShadow fakeCommon fakeUtil fakeClient "shadow-shared"
        (fakeOptions (some ⟨true⟩) "" "") baseLabels baseAnnotations baseEnvs
        (clusterWorld [runningPod "shadow-shared" "10.0.0.5"] [storedConfigMap "shadow-shared"]
          ∅ [CallKind.IncreaseRef])).val.2.2.2 =
      some (failure "IncreaseRef") :=
  ⟨(platform_errors fakeCommon fakeUtil fakeClient "shadow-t1" (fakeOptions none "" "")
      baseLabels baseAnnotations baseEnvs (emptyWorld [CallKind.WaitPodReady])
      (Event.WaitPodReady "shadow-t1" "default" (.error (failure "WaitPodReady")))
      (List.Mem.tail _ (List.Mem.tail _ (List.Mem.tail _ (List.Mem.head _))))
      (failure "WaitPodReady") rfl).1 (by decide),
   (platform_errors fakeCommon fakeUtil fakeClient "shadow-shared"
      (fakeOptions (some ⟨true⟩) "" "") baseLabels baseAnnotations baseEnvs
      (clusterWorld [runningPod "shadow-shared" "10.0.0.5"] [storedConfigMap "shadow-shared"]
        ∅ [CallKind.IncreaseRef])
      (Event.IncreaseRef "shadow-shared" "default" (some (failure "IncreaseRef")))
      (List.Mem.tail _ (List.Mem.tail _ (List.Mem.tail _ (List.Mem.tail _ (List.Mem.head _)))))
      (failure "IncreaseRef") rfl).1 (by decide)⟩

/-- C7, the claim as stated fails: on the example cluster with sharing enabled, `GetPod`
returns the error `GetPod: forbidden` and the run returns a nil error with a freshly
provisioned shadow; and with a pod but a failing `GetConfigMap`, the error returned is
not the one `GetConfigMap` returned. -/
theorem lookup_errors_not_propagated :
    (Event.GetPod "shadow-t1" "default" (.error (failure "GetPod")) ∈
        (GetOrCreateShadow fakeCommon fakeUtil fakeClient "shadow-t1"
          (fakeOptions (some ⟨true⟩) "" "") baseLabels baseAnnotations baseEnvs
          (emptyWorld [CallKind.GetPod])).trace ∧
      (GetOrCreateShadow fakeCommon fakeUtil fakeClient "shadow-t1"
          (fakeOptions (some ⟨true⟩) "" "") baseLabels baseAnnotations baseEnvs
          (emptyWorld [CallKind.GetPod])).val =
        ("10.0.0.7", "shadow-t1",
          some ⟨"127.0.0.1", "2222", "root", "root", "/home/dev/.ktctl/pk/shadow-t1_id_rsa"⟩,
          none)) ∧
    (Event.GetConfigMap "shadow-t1" "default" (.error (failure "GetConfigMap")) ∈
        (GetOrCreateShadow fakeCommon fakeUtil fakeClient "shadow-t1"
          (fakeOptions (some ⟨true⟩) "" "") baseLabels baseAnnotations baseEnvs
          (clusterWorld [runningPod "shadow-t1" "10.0.0.2"] [storedConfigMap "shadow-t1"] ∅
            [CallKind.GetConfigMap])).trace ∧
      (GetOrCreateShadow fakeCommon fakeUtil fakeClient "shadow-t1"
          (fakeOptions (some ⟨true⟩) "" "") baseLabels baseAnnotations baseEnvs
          (clusterWorld [runningPod "shadow-t1" "10.0.0.2"] [storedConfigMap "shadow-t1"] ∅
            [CallKind.GetConfigMap])).val.2.2.2 =
        some ⟨"Found shadow pod but no configMap. Please delete the pod shadow-t1"⟩ ∧
      (⟨"Found shadow pod but no configMap. Please delete the pod shadow-t1"⟩ : GoError) ≠
        failure "GetConfigMap") :=
  ⟨⟨List.Mem.head _, rfl⟩, List.Mem.tail _ (List.Mem.head _), rfl, by decide⟩

end Properties

end KtConnect
